import Mathlib

/-!
# wmbusmeters: the run-loop orchestrator of `src/main.cc`

A shallow embedding of `startUsingCommandline`, `oneshotCheck`, `writePid`,
`startDaemon` and `startUsingConfigFiles`.

The functions of `main.cc` are effectful; each is embedded as a pure function
that returns the sequence of calls it makes on its collaborators (the *trace*,
in program order), the state it leaves behind, and how it ended (`Outcome`).

Collaborators whose definitions live in other translation units
(`toMeterLinkMode`, `toMeterType`, `detectMBusDevice`, `loadConfiguration`,
the result of `fopen`, `fork`, `setsid`, `chdir`) are parameters, gathered in
`Env` and `Sys`, and the enumeration of link modes is a type parameter `LM`.

Not part of the trace: the four logging switches of main.cc:101-104 and the
`verbose(...)` log lines, which influence neither control flow nor any
collaborator.
-/

namespace Wmbusmeters

/-! ## Data model -/

/-- The meter types switched over at main.cc:177-209. -/
inductive MeterType where
  | MULTICAL21_METER
  | FLOWIQ3100_METER
  | MULTICAL302_METER
  | OMNIPOWER_METER
  | SUPERCOM587_METER
  | IPERL_METER
  | QCALORIC_METER
  | UNKNOWN_METER
  deriving DecidableEq, Repr

/-- The device kinds switched over at main.cc:124-145. -/
inductive MBusDeviceType where
  | DEVICE_IM871A
  | DEVICE_AMB8465
  | DEVICE_SIMULATOR
  | DEVICE_UNKNOWN
  deriving DecidableEq, Repr

/-- One configured meter: the fields `name`, `type`, `id`, `key` read from the
elements of `cmdline->meters` at main.cc:150-207. -/
structure MeterInfo where
  name : String
  type : String
  id : String
  key : String
  deriving DecidableEq, Repr

/-- The fields of `CommandLine` that `startUsingCommandline` reads or writes
(the remaining ones only feed the log switches and the `Printer`). -/
structure CommandLine (LM : Type) where
  daemon : Bool
  oneshot : Bool
  list_shell_envs : Bool
  exitafter : Int
  usb_device : String
  link_mode_set : Bool
  link_mode : LM
  meters : List MeterInfo

/-- The decoder constructors called at main.cc:179-203. -/
inductive Decoder where
  | createMultical21
  | createMultical302
  | createOmnipower
  | createSupercom587
  | createIperl
  | createQCaloric
  deriving DecidableEq, Repr

/-- A live meter instance of the registry `meters` (main.cc:172): which
constructor built it, the three configuration strings handed to the
constructor, and the value its `numUpdates()` returns. -/
structure Meter where
  decoder : Decoder
  name : String
  id : String
  key : String
  numUpdates : Nat
  deriving DecidableEq, Repr

/-- The two callbacks subscribed with `onUpdate` at main.cc:225-226. -/
inductive Observer where
  | print
  | oneshotCheck
  deriving DecidableEq, Repr

/-- How a function of main.cc ends: it returns to its caller, it calls
`exit(status)`, or it calls `error(fmt, args...)`. -/
inductive Outcome where
  | returned
  | exit (status : Int)
  | error (fmt : String) (args : List String)
  deriving DecidableEq, Repr

/-- Modelled from the spec: `error` is declared in util.h and its definition is
not among the sources at hand. It is fatal: it reports the message and
terminates the process with a non-zero status (spec sections 6 and 7; the note
"Exit before fork, if it fails." at main.cc:279-280 relies on it). `failed`
holds of the outcomes that terminate the process with a non-zero status. -/
def Outcome.failed : Outcome → Bool
  | Outcome.returned => false
  | Outcome.exit status => status != 0
  | Outcome.error _ _ => true

/-- The calls made on collaborators and on the operating system, in the
spelling of main.cc. -/
inductive Effect (LM : Type) where
  | createSerialCommunicationManager (exitafter : Int)
  | onExit
  | detectMBusDevice (usb_device : String)
  | openIM871A (device : String)
  | openAMB8465 (device : String)
  | openSimulator (device : String)
  | warning (msg : String)
  | sleep (seconds : Nat)
  | toMeterLinkMode (type : String)
  | setLinkMode (link_mode : LM)
  | getLinkMode
  | newPrinter
  | toMeterType (type : String)
  | create (decoder : Decoder) (name id key : String)
  | printMeter (index : Nat)
  | printf (fmt : String) (args : List String)
  | onUpdate (index : Nat) (observer : Observer)
  | onTelegram
  | simulate
  | notice (fmt : String) (args : List String)
  | waitForStop
  | setlogmask
  | openlog (ident : String)
  | enableSyslog
  | fopen (path : String)
  | fprintf (path : String) (text : String)
  | fclose (path : String)
  | fork
  | umask (mask : Nat)
  | setsid
  | chdir (path : String)
  | close (fd : Nat)
  | loadConfiguration (root : String)
  deriving DecidableEq, Repr

/-- The collaborators of `startUsingCommandline` that are defined outside
main.cc. `shellEnvs` is the `envs` vector that `printMeter` fills in at
main.cc:213-216. -/
structure Env (LM : Type) where
  toMeterLinkMode : String → LM
  toMeterType : String → MeterType
  detectMBusDevice : String → MBusDeviceType × String
  shellEnvs : Meter → List String

/-- What `startUsingCommandline` leaves behind: the calls it made, the command
line as mutated by the link-mode negotiation, the registry `meters`, and how it
ended. -/
structure Run (LM : Type) where
  trace : List (Effect LM)
  cmdline : CommandLine LM
  meters : List Meter
  outcome : Outcome

/-! ## startUsingCommandline (main.cc:99-240) -/

/-- The switch of main.cc:124-145: the open call made for a detected device,
or `none` for `DEVICE_UNKNOWN`. -/
def openDevice {LM : Type} : MBusDeviceType × String → Option (Effect LM)
  | (MBusDeviceType.DEVICE_IM871A, device) => some (Effect.openIM871A device)
  | (MBusDeviceType.DEVICE_AMB8465, device) => some (Effect.openAMB8465 device)
  | (MBusDeviceType.DEVICE_SIMULATOR, device) => some (Effect.openSimulator device)
  | (MBusDeviceType.DEVICE_UNKNOWN, _) => none

/-- The loop of main.cc:150-159 over the remaining meters, from the current
values of `link_mode_set` and `link_mode`. Returns the calls made, the values
of `(link_mode_set, link_mode)` it leaves, and the fatal outcome if it raised
one. -/
def linkModeLoop {LM : Type} [DecidableEq LM] (toMeterLinkMode : String → LM) :
    List MeterInfo → Bool → LM → List (Effect LM) × (Bool × LM) × Option Outcome
  | [], link_mode_set, link_mode => ([], (link_mode_set, link_mode), none)
  | m :: rest, link_mode_set, link_mode =>
    if !link_mode_set then
      let r := linkModeLoop toMeterLinkMode rest true (toMeterLinkMode m.type)
      (Effect.toMeterLinkMode m.type :: r.1, r.2)
    else if link_mode != toMeterLinkMode m.type then
      ([Effect.toMeterLinkMode m.type], (link_mode_set, link_mode),
        some (Outcome.error "A different link mode has been set already.\n" []))
    else
      let r := linkModeLoop toMeterLinkMode rest link_mode_set link_mode
      (Effect.toMeterLinkMode m.type :: r.1, r.2)

/-- Lines 147-160 of main.cc: the loop runs only when no link mode was set
explicitly. -/
def negotiate {LM : Type} [DecidableEq LM] (toMeterLinkMode : String → LM)
    (cmdline : CommandLine LM) : List (Effect LM) × (Bool × LM) × Option Outcome :=
  if !cmdline.link_mode_set then
    linkModeLoop toMeterLinkMode cmdline.meters cmdline.link_mode_set cmdline.link_mode
  else
    ([], (cmdline.link_mode_set, cmdline.link_mode), none)

/-- The switch of main.cc:177-209: the constructor used for a meter type, or
`none` for `UNKNOWN_METER`. `flowiq3100` is built by `createMultical21`
(main.cc:183). -/
def decoderFor : MeterType → Option Decoder
  | MeterType.MULTICAL21_METER => some Decoder.createMultical21
  | MeterType.FLOWIQ3100_METER => some Decoder.createMultical21
  | MeterType.MULTICAL302_METER => some Decoder.createMultical302
  | MeterType.OMNIPOWER_METER => some Decoder.createOmnipower
  | MeterType.SUPERCOM587_METER => some Decoder.createSupercom587
  | MeterType.IPERL_METER => some Decoder.createIperl
  | MeterType.QCALORIC_METER => some Decoder.createQCaloric
  | MeterType.UNKNOWN_METER => none

/-- Modelled from the spec: the decoder constructors (`createMultical21`, ...)
are declared in meters.h and defined elsewhere. A constructor takes
`(deviceHandle, name, id, key)` (spec section 6) and the instance it returns
carries these strings and has seen no update yet. -/
def createMeter (decoder : Decoder) (m : MeterInfo) : Meter :=
  { decoder := decoder, name := m.name, id := m.id, key := m.key, numUpdates := 0 }

/-- The text printed for one entry of `envs` at main.cc:219-221:
`e.substr(0, e.find('='))`, the part before the first `=` (all of `e` when
there is none, since `find` then returns `npos`). -/
def envKey (e : String) : String :=
  e.takeWhile (fun c => c != '=')

/-- The loop of main.cc:175-227 over the remaining configured meters, from the
current registry. Returns the calls made, the registry, and the outcome that
ended the process if one did. -/
def populate {LM : Type} (env : Env LM) (list_shell_envs : Bool) :
    List MeterInfo → List Meter → List (Effect LM) × List Meter × Option Outcome
  | [], meters => ([], meters, none)
  | m :: rest, meters =>
    match decoderFor (env.toMeterType m.type) with
    | none =>
      ([Effect.toMeterType m.type], meters,
        some (Outcome.error "No such meter type \"%s\"\n" [m.type]))
    | some decoder =>
      let meters1 := meters ++ [createMeter decoder m]
      let made : List (Effect LM) :=
        [Effect.toMeterType m.type, Effect.create decoder m.name m.id m.key]
      if list_shell_envs then
        (made ++ [Effect.printMeter (meters1.length - 1),
            Effect.printf "Environment variables provided to shell for meter %s:\n" [m.type]]
          ++ (env.shellEnvs (createMeter decoder m)).map
              (fun e => Effect.printf "%s\n" [envKey e]),
          meters1, some (Outcome.exit 0))
      else
        let r := populate env list_shell_envs rest meters1
        (made ++ [Effect.onUpdate (meters1.length - 1) Observer.print,
            Effect.onUpdate (meters1.length - 1) Observer.oneshotCheck] ++ r.1,
          r.2.1, r.2.2)

/-- Lines 174-232 of main.cc: the registry is populated when meters are
configured, otherwise every telegram heard is printed. -/
def registerMeters {LM : Type} (env : Env LM) (cmdline : CommandLine LM) :
    List (Effect LM) × List Meter × Option Outcome :=
  if cmdline.meters.length > 0 then
    populate env cmdline.list_shell_envs cmdline.meters []
  else
    ([Effect.printf "No meters configured. Printing id:s of all telegrams heard!\n\n" [],
      Effect.onTelegram], [], none)

/-- The function `startUsingCommandline` of main.cc:99-240. -/
def startUsingCommandline {LM : Type} [DecidableEq LM] (env : Env LM)
    (cmdline : CommandLine LM) : Run LM :=
  let t0 : List (Effect LM) :=
    [Effect.createSerialCommunicationManager cmdline.exitafter, Effect.onExit,
      Effect.detectMBusDevice cmdline.usb_device]
  let type_and_device := env.detectMBusDevice cmdline.usb_device
  match openDevice type_and_device with
  | none =>
    { trace := t0 ++ [Effect.warning "No wmbus device found! Exiting!\n"]
        ++ (if cmdline.daemon then [Effect.sleep 1] else []),
      cmdline := cmdline, meters := [], outcome := Outcome.exit 1 }
  | some opened =>
    let t1 := t0 ++ [opened]
    let neg := negotiate env.toMeterLinkMode cmdline
    let cmdline1 : CommandLine LM :=
      { cmdline with link_mode_set := neg.2.1.1, link_mode := neg.2.1.2 }
    match neg.2.2 with
    | some o =>
      { trace := t1 ++ neg.1, cmdline := cmdline1, meters := [], outcome := o }
    | none =>
      if !cmdline1.link_mode_set then
        { trace := t1 ++ neg.1, cmdline := cmdline1, meters := [],
          outcome := Outcome.error
            "If you specify no meters, you have to specify the link mode: --c1 or --t1\n" [] }
      else
        let t2 := t1 ++ neg.1
          ++ [Effect.setLinkMode cmdline1.link_mode, Effect.getLinkMode, Effect.newPrinter]
        let reg := registerMeters env cmdline1
        match reg.2.2 with
        | some o =>
          { trace := t2 ++ reg.1, cmdline := cmdline1, meters := reg.2.1, outcome := o }
        | none =>
          let t3 := t2 ++ reg.1
            ++ (if type_and_device.1 = MBusDeviceType.DEVICE_SIMULATOR
                then [Effect.simulate] else [])
          { trace := t3 ++ [Effect.notice "wmbusmeters waiting for telegrams\n" [],
              Effect.waitForStop],
            cmdline := cmdline1, meters := reg.2.1, outcome := Outcome.returned }

/-! ## oneshotCheck (main.cc:242-251) and the delivery of updates -/

/-- The part of the running process that `oneshotCheck` and the delivery of an
update can touch: the registry, the number of `manager->stop()` calls made so
far, and the meters handed to `output->print` so far. -/
structure World where
  meters : List Meter
  stops : Nat
  printed : List Meter
  deriving DecidableEq, Repr

/-- The loop of main.cc:246-248: `false` when it leaves the function through
the `return` at a meter without updates, `true` when it runs to its end. -/
def oneshotLoop : List Meter → Bool
  | [] => true
  | m :: rest => if m.numUpdates == 0 then false else oneshotLoop rest

/-- The function `oneshotCheck` of main.cc:242-251. The argument `meter` is the
meter whose update triggered the call. -/
def oneshotCheck {LM : Type} (cmdline : CommandLine LM) (_meter : Meter) (w : World) : World :=
  if !cmdline.oneshot then w
  else if !oneshotLoop w.meters then w
  else { w with stops := w.stops + 1 }

/-- The callback `output->print` subscribed first at main.cc:225. -/
def printUpdate (meter : Meter) (w : World) : World :=
  { w with printed := w.printed ++ [meter] }

/-- Modelled from the spec: the delivery of an accepted telegram to a meter
(`notify`, spec section 4.3) belongs to the meter implementations, which are
not among the sources at hand. It increments the update count of the meter at
position `i` of the registry and then invokes the subscribed observers in
subscription order; main.cc:225-226 subscribes `output->print` first and
`oneshotCheck` second. -/
def notify {LM : Type} (cmdline : CommandLine LM) (i : Nat) (w : World) : World :=
  match w.meters.get? i with
  | none => w
  | some m =>
    let updated : Meter := { m with numUpdates := m.numUpdates + 1 }
    let w1 : World := { w with meters := w.meters.set i updated }
    oneshotCheck cmdline updated (printUpdate updated w1)

/-- Deliver a sequence of accepted updates (each names the position of its
meter in the registry). Returns, for each update in turn, whether its
`oneshotCheck` called `manager->stop()`, and the final state. -/
def deliver {LM : Type} (cmdline : CommandLine LM) : List Nat → World → List Bool × World
  | [], w => ([], w)
  | i :: rest, w =>
    let w1 := notify cmdline i w
    let r := deliver cmdline rest w1
    (decide (w.stops < w1.stops) :: r.1, r.2)

/-! ## writePid, startDaemon, startUsingConfigFiles (main.cc:253-322) -/

/-- The two link modes selectable with `--c1` and `--t1` (main.cc:162). -/
inductive SampleLinkMode where
  | C1
  | T1
  deriving DecidableEq, Repr

/-- Sample type table. -/
def sampleToMeterType (type : String) : MeterType :=
  if type = "iperl" then MeterType.IPERL_METER
  else if type = "multical21" then MeterType.MULTICAL21_METER
  else if type = "omnipower" then MeterType.OMNIPOWER_METER
  else MeterType.UNKNOWN_METER

/-- Sample link-mode table. -/
def sampleToMeterLinkMode (type : String) : SampleLinkMode :=
  if type = "multical21" then SampleLinkMode.C1 else SampleLinkMode.T1

/-- Sample environment in which an im871a dongle is attached. -/
def sampleEnv : Env SampleLinkMode :=
  { toMeterLinkMode := sampleToMeterLinkMode
    toMeterType := sampleToMeterType
    detectMBusDevice := fun _ => (MBusDeviceType.DEVICE_IM871A, "/dev/im871a")
    shellEnvs := fun _ => ["METER_NAME=M1", "METER_TYPE=iperl"] }

/-- Sample environment in which no dongle is attached. -/
def sampleEnvNoDevice : Env SampleLinkMode :=
  { sampleEnv with detectMBusDevice := fun _ => (MBusDeviceType.DEVICE_UNKNOWN, "") }

/-- Sample command line: device `auto`, no explicit link mode, the given meters. -/
def sampleCmdline (meters : List MeterInfo) : CommandLine SampleLinkMode :=
  { daemon := false, oneshot := true, list_shell_envs := false, exitafter := 0,
    usb_device := "auto", link_mode_set := false, link_mode := SampleLinkMode.C1,
    meters := meters }

/-- The calls that construct a decoder. -/
def Effect.isCreate {LM : Type} : Effect LM → Bool
  | Effect.create _ _ _ _ => true
  | _ => false

/-- Scenario A of the spec: two meters of type iperl, one-shot enabled. -/
def scenarioA : CommandLine SampleLinkMode :=
  sampleCmdline [{ name := "M1", type := "iperl", id := "11111111", key := "" },
    { name := "M2", type := "iperl", id := "22222222", key := "" }]

/-- Scenario B of the spec: types multical21 and omnipower, no explicit mode. -/
def scenarioB : CommandLine SampleLinkMode :=
  sampleCmdline [{ name := "Water", type := "multical21", id := "11111111", key := "" },
    { name := "Power", type := "omnipower", id := "22222222", key := "" }]

/-- Scenario C of the spec without an explicit mode: no meters configured. -/
def noMetersNoMode : CommandLine SampleLinkMode :=
  sampleCmdline []

/-- An explicit `--c1` together with a meter whose type requires T1 in the
sample table. -/
def explicitC1WithIperl : CommandLine SampleLinkMode :=
  { sampleCmdline [{ name := "M1", type := "iperl", id := "11111111", key := "" }] with
    link_mode_set := true, link_mode := SampleLinkMode.C1 }

/-- An explicit `--t1`, the shell-environment listing requested, a meter of type
iperl followed by a meter whose type is not a meter type. -/
def listEnvsWithBogus : CommandLine SampleLinkMode :=
  { sampleCmdline [{ name := "M1", type := "iperl", id := "11111111", key := "" },
      { name := "M2", type := "bogus", id := "22222222", key := "" }] with
    list_shell_envs := true, link_mode_set := true, link_mode := SampleLinkMode.T1 }

/-- A meter of type iperl followed by a meter whose type is not a meter type,
with an explicit `--t1`. -/
def iperlThenBogus : CommandLine SampleLinkMode :=
  { sampleCmdline [{ name := "M1", type := "iperl", id := "11111111", key := "" },
      { name := "M2", type := "bogus", id := "22222222", key := "" }] with
    link_mode_set := true, link_mode := SampleLinkMode.T1 }

/-- Two meters of type iperl that are both named M1. -/
def sameNameTwice : CommandLine SampleLinkMode :=
  sampleCmdline [{ name := "M1", type := "iperl", id := "11111111", key := "" },
    { name := "M1", type := "iperl", id := "22222222", key := "" }]

/-- The update count of the meter at position `j` of a registry (0 past its
end). -/
def updatesAt (meters : List Meter) (j : Nat) : Nat :=
  ((meters.get? j).map Meter.numUpdates).getD 0

/-- The instance built for meter M1 of Scenario A. -/
def meterM1 : Meter :=
  { decoder := Decoder.createIperl, name := "M1", id := "11111111", key := "", numUpdates := 0 }

/-- Scenario A with one-shot mode disabled. -/
def scenarioANoOneshot : CommandLine SampleLinkMode :=
  { scenarioA with oneshot := false }

/-- The running process of Scenario A once the registry is populated: no stop
requested yet, nothing printed yet. -/
def scenarioAWorld : World :=
  { meters := (startUsingCommandline sampleEnv scenarioA).meters, stops := 0, printed := [] }

/-- The negotiation loop makes no call other than `toMeterLinkMode`. -/
theorem linkModeLoop_consults {LM : Type} [DecidableEq LM] (toLM : String → LM)
    (ms : List MeterInfo) (set : Bool) (lm : LM) :
    ∀ e ∈ (linkModeLoop toLM ms set lm).1, ∃ t, e = Effect.toMeterLinkMode t := by
  induction ms generalizing set lm with
  | nil => intro e he; simp [linkModeLoop] at he
  | cons m rest ih =>
    intro e he
    unfold linkModeLoop at he
    split at he
    · simp only [List.mem_cons] at he
      rcases he with he | he
      · exact ⟨_, he⟩
      · exact ih _ _ e he
    · split at he
      · simp only [List.mem_singleton] at he
        exact ⟨_, he⟩
      · simp only [List.mem_cons] at he
        rcases he with he | he
        · exact ⟨_, he⟩
        · exact ih _ _ e he

/-- Once a mode is set, the loop passes over meters that all require it and
leaves the mode as it is. -/
theorem linkModeLoop_set_agree {LM : Type} [DecidableEq LM] (toLM : String → LM)
    (ms : List MeterInfo) (lm : LM) (h : ∀ x ∈ ms, toLM x.type = lm) :
    (linkModeLoop toLM ms true lm).2 = ((true, lm), none) := by
  induction ms with
  | nil => simp [linkModeLoop]
  | cons m rest ih =>
    have hm : toLM m.type = lm := h m (List.mem_cons_self _ _)
    have hrest : ∀ x ∈ rest, toLM x.type = lm := fun x hx => h x (List.mem_cons_of_mem _ hx)
    simp [linkModeLoop, hm, ih hrest]

/-- Once a mode is set, the loop raises the fatal error at the first meter that
requires another mode. -/
theorem linkModeLoop_set_differ {LM : Type} [DecidableEq LM] (toLM : String → LM)
    (ms : List MeterInfo) (lm : LM) (h : ∃ x ∈ ms, toLM x.type ≠ lm) :
    (linkModeLoop toLM ms true lm).2 =
      ((true, lm), some (Outcome.error "A different link mode has been set already.\n" [])) := by
  induction ms with
  | nil => simp at h
  | cons m rest ih =>
    by_cases hm : toLM m.type = lm
    · have hrest : ∃ x ∈ rest, toLM x.type ≠ lm := by
        rcases h with ⟨x, hx, hne⟩
        rcases List.mem_cons.mp hx with rfl | hx
        · exact absurd hm hne
        · exact ⟨x, hx, hne⟩
      simp [linkModeLoop, hm, ih hrest]
    · have hm2 : ¬ lm = toLM m.type := fun e => hm e.symm
      simp [linkModeLoop, hm2]

/-- With no mode set, the first meter sets the mode and the loop goes on with
the mode set. -/
theorem negotiate_unset_cons {LM : Type} [DecidableEq LM] (toLM : String → LM)
    (cmdline : CommandLine LM) (first : MeterInfo) (rest : List MeterInfo)
    (hset : cmdline.link_mode_set = false) (hmeters : cmdline.meters = first :: rest) :
    negotiate toLM cmdline =
      (Effect.toMeterLinkMode first.type :: (linkModeLoop toLM rest true (toLM first.type)).1,
        (linkModeLoop toLM rest true (toLM first.type)).2) := by
  simp [negotiate, hset, hmeters, linkModeLoop]

/-- With a mode set explicitly the negotiation does nothing. -/
theorem negotiate_set {LM : Type} [DecidableEq LM] (toLM : String → LM)
    (cmdline : CommandLine LM) (hset : cmdline.link_mode_set = true) :
    negotiate toLM cmdline = ([], (true, cmdline.link_mode), none) := by
  simp [negotiate, hset]

/-- With no mode set and no meters the negotiation leaves the mode unset. -/
theorem negotiate_unset_nil {LM : Type} [DecidableEq LM] (toLM : String → LM)
    (cmdline : CommandLine LM) (hset : cmdline.link_mode_set = false)
    (hmeters : cmdline.meters = []) :
    negotiate toLM cmdline = ([], (false, cmdline.link_mode), none) := by
  simp [negotiate, hset, hmeters, linkModeLoop]

/-- The negotiation makes no call other than `toMeterLinkMode`. -/
theorem negotiate_consults {LM : Type} [DecidableEq LM] (toLM : String → LM)
    (cmdline : CommandLine LM) :
    ∀ e ∈ (negotiate toLM cmdline).1, ∃ t, e = Effect.toMeterLinkMode t := by
  unfold negotiate
  split
  · exact linkModeLoop_consults _ _ _ _
  · intro e he; simp at he

/-- All meters require the same mode exactly when every meter after the first
requires the mode of the first. -/
theorem agree_iff_rest {LM : Type} (f : MeterInfo → LM) (first : MeterInfo)
    (rest : List MeterInfo) :
    (∀ x ∈ first :: rest, ∀ y ∈ first :: rest, f x = f y) ↔ ∀ x ∈ rest, f x = f first := by
  constructor
  · intro h x hx
    exact h x (List.mem_cons_of_mem _ hx) first (List.mem_cons_self _ _)
  · intro h x hx y hy
    have hx2 : f x = f first := by
      rcases List.mem_cons.mp hx with rfl | hx
      · rfl
      · exact h x hx
    have hy2 : f y = f first := by
      rcases List.mem_cons.mp hy with rfl | hy
      · rfl
      · exact h y hy
    rw [hx2, hy2]

/-- What the negotiation leaves when no mode was set and meters are configured:
the mode of the first meter, and the conflict error exactly when a later meter
requires another mode. -/
theorem negotiate_inferred {LM : Type} [DecidableEq LM] (toLM : String → LM)
    (cmdline : CommandLine LM) (first : MeterInfo) (rest : List MeterInfo)
    (hset : cmdline.link_mode_set = false) (hmeters : cmdline.meters = first :: rest) :
    ((∀ x ∈ rest, toLM x.type = toLM first.type) ∧
      (negotiate toLM cmdline).2 = ((true, toLM first.type), none)) ∨
    ((∃ x ∈ rest, toLM x.type ≠ toLM first.type) ∧
      (negotiate toLM cmdline).2 = ((true, toLM first.type),
        some (Outcome.error "A different link mode has been set already.\n" []))) := by
  rw [negotiate_unset_cons toLM cmdline first rest hset hmeters]
  by_cases hag : ∀ x ∈ rest, toLM x.type = toLM first.type
  · exact Or.inl ⟨hag, linkModeLoop_set_agree toLM rest _ hag⟩
  · have hd : ∃ x ∈ rest, toLM x.type ≠ toLM first.type := by
      by_contra hc
      exact hag (fun x hx => by_contra (fun hne => hc ⟨x, hx, hne⟩))
    exact Or.inr ⟨hd, linkModeLoop_set_differ toLM rest _ hd⟩

/-- A device kind other than `DEVICE_UNKNOWN` is opened, by one of the three
open calls. -/
theorem openDevice_known {LM : Type} (td : MBusDeviceType × String)
    (h : td.1 ≠ MBusDeviceType.DEVICE_UNKNOWN) :
    ∃ e : Effect LM, openDevice td = some e ∧
      (e = Effect.openIM871A td.2 ∨ e = Effect.openAMB8465 td.2 ∨ e = Effect.openSimulator td.2) := by
  rcases td with ⟨k, d⟩
  cases k <;> simp [openDevice] at h ⊢

/-- For `DEVICE_UNKNOWN` nothing is opened. -/
theorem openDevice_unknown {LM : Type} (td : MBusDeviceType × String)
    (h : td.1 = MBusDeviceType.DEVICE_UNKNOWN) : @openDevice LM td = none := by
  rcases td with ⟨k, d⟩
  simp only at h
  subst h
  rfl

/-! ## Lemmas on the population of the registry -/

/-- The calls that the population loop can make. -/
theorem populate_calls {LM : Type} (env : Env LM) (b : Bool) (ms : List MeterInfo)
    (acc : List Meter) :
    ∀ e ∈ (populate env b ms acc).1,
      (∃ t, e = Effect.toMeterType t) ∨ (∃ d n i k, e = Effect.create d n i k) ∨
      (∃ i, e = Effect.printMeter i) ∨ (∃ f a, e = Effect.printf f a) ∨
      (∃ i o, e = Effect.onUpdate i o) := by
  induction ms generalizing acc with
  | nil => intro e he; simp [populate] at he
  | cons m rest ih =>
    intro e he
    unfold populate at he
    split at he
    · simp only [List.mem_singleton] at he
      subst he
      simp
    · split at he
      · simp only [List.mem_append, List.mem_cons, List.mem_map, List.mem_singleton,
          List.not_mem_nil, or_false] at he
        rcases he with ((he | he) | (he | he)) | ⟨x, _, he⟩
        all_goals subst he
        all_goals simp
      · simp only [List.mem_append, List.mem_cons, List.mem_singleton,
          List.not_mem_nil, or_false] at he
        rcases he with ((he | he) | (he | he)) | he
        · subst he; simp
        · subst he; simp
        · subst he; simp
        · subst he; simp
        · exact ih _ e he

/-- Every decoder constructed by the population loop is pushed on the
registry: the registry grows by the number of constructor calls. -/
theorem populate_creates {LM : Type} (env : Env LM) (b : Bool) (ms : List MeterInfo)
    (acc : List Meter) :
    ((populate env b ms acc).1.filter Effect.isCreate).length + acc.length =
      (populate env b ms acc).2.1.length := by
  induction ms generalizing acc with
  | nil => simp [populate]
  | cons m rest ih =>
    unfold populate
    split
    · simp [Effect.isCreate]
    · rename_i d _
      split
      · simp [Effect.isCreate, List.filter_map, Function.comp_def]
        omega
      · have h := ih (acc ++ [createMeter d m])
        simp [Effect.isCreate, List.filter_append] at h ⊢
        omega

/-- How the population loop can end the process: not at all, with `exit(0)`
after listing the shell environment, or with the fatal error for an unknown
meter type. -/
theorem populate_outcome {LM : Type} (env : Env LM) (b : Bool) (ms : List MeterInfo)
    (acc : List Meter) :
    (populate env b ms acc).2.2 = none ∨
    ((populate env b ms acc).2.2 = some (Outcome.exit 0) ∧ b = true) ∨
    ∃ x ∈ ms, (populate env b ms acc).2.2 =
      some (Outcome.error "No such meter type \"%s\"\n" [x.type]) := by
  induction ms generalizing acc with
  | nil => simp [populate]
  | cons m rest ih =>
    unfold populate
    split
    · exact Or.inr (Or.inr ⟨m, List.mem_cons_self _ _, rfl⟩)
    · rename_i d _
      split
      · rename_i hb
        exact Or.inr (Or.inl ⟨rfl, hb⟩)
      · rcases ih (acc ++ [createMeter d m]) with h | h | ⟨x, hx, h⟩
        · exact Or.inl h
        · exact Or.inr (Or.inl h)
        · exact Or.inr (Or.inr ⟨x, List.mem_cons_of_mem _ hx, h⟩)

/-- With no shell-environment listing and every type recognised, the loop
pushes one instance per configured meter, in order, and does not end the
process. -/
theorem populate_known {LM : Type} (env : Env LM) (ms : List MeterInfo) (acc : List Meter)
    (h : ∀ x ∈ ms, decoderFor (env.toMeterType x.type) ≠ none) :
    ∃ news, (populate env false ms acc).2 = (acc ++ news, none) ∧
      List.Forall₂ (fun (mt : Meter) (m : MeterInfo) =>
        decoderFor (env.toMeterType m.type) = some mt.decoder ∧ mt.name = m.name ∧
        mt.id = m.id ∧ mt.key = m.key ∧ mt.numUpdates = 0) news ms := by
  induction ms generalizing acc with
  | nil => exact ⟨[], by simp [populate], List.Forall₂.nil⟩
  | cons m rest ih =>
    have hm := h m (List.mem_cons_self _ _)
    have hrest : ∀ x ∈ rest, decoderFor (env.toMeterType x.type) ≠ none :=
      fun x hx => h x (List.mem_cons_of_mem _ hx)
    cases hd : decoderFor (env.toMeterType m.type) with
    | none => exact absurd hd hm
    | some d =>
      rcases ih (acc ++ [createMeter d m]) hrest with ⟨news, h1, h2⟩
      refine ⟨createMeter d m :: news, ?_, List.Forall₂.cons ?_ h2⟩
      · simp [populate, hd, h1]
      · simp [createMeter, hd]

/-- With no shell-environment listing, the loop ends with the fatal error at
the first meter whose type is not recognised, having pushed one instance for
each meter before it. -/
theorem populate_unknown {LM : Type} (env : Env LM) (pre post : List MeterInfo)
    (bad : MeterInfo) (acc : List Meter)
    (hpre : ∀ x ∈ pre, decoderFor (env.toMeterType x.type) ≠ none)
    (hbad : decoderFor (env.toMeterType bad.type) = none) :
    ∃ news, (populate env false (pre ++ bad :: post) acc).2 =
        (acc ++ news, some (Outcome.error "No such meter type \"%s\"\n" [bad.type])) ∧
      List.Forall₂ (fun (mt : Meter) (m : MeterInfo) =>
        decoderFor (env.toMeterType m.type) = some mt.decoder ∧ mt.name = m.name ∧
        mt.id = m.id ∧ mt.key = m.key ∧ mt.numUpdates = 0) news pre := by
  induction pre generalizing acc with
  | nil => exact ⟨[], by simp [populate, hbad], List.Forall₂.nil⟩
  | cons m rest ih =>
    have hm := hpre m (List.mem_cons_self _ _)
    have hrest : ∀ x ∈ rest, decoderFor (env.toMeterType x.type) ≠ none :=
      fun x hx => hpre x (List.mem_cons_of_mem _ hx)
    cases hd : decoderFor (env.toMeterType m.type) with
    | none => exact absurd hd hm
    | some d =>
      rcases ih (acc ++ [createMeter d m]) hrest with ⟨news, h1, h2⟩
      refine ⟨createMeter d m :: news, ?_, List.Forall₂.cons ?_ h2⟩
      · simp [populate, hd, h1]
      · simp [createMeter, hd]

/-- With the shell-environment listing requested, the loop ends at the first
configured meter: with `exit(0)` when its type is recognised, with the fatal
error otherwise. -/
theorem populate_list_shell_envs {LM : Type} (env : Env LM) (m : MeterInfo)
    (rest : List MeterInfo) (acc : List Meter) :
    (populate env true (m :: rest) acc).2 =
      match decoderFor (env.toMeterType m.type) with
      | some d => (acc ++ [createMeter d m], some (Outcome.exit 0))
      | none => (acc, some (Outcome.error "No such meter type \"%s\"\n" [m.type])) := by
  unfold populate
  cases decoderFor (env.toMeterType m.type) <;> simp

/-! ## Lemmas on startUsingCommandline -/

/-- The calls that the registration step can make. -/
theorem registerMeters_calls {LM : Type} (env : Env LM) (cmdline : CommandLine LM) :
    ∀ e ∈ (registerMeters env cmdline).1,
      (∃ t, e = Effect.toMeterType t) ∨ (∃ d n i k, e = Effect.create d n i k) ∨
      (∃ i, e = Effect.printMeter i) ∨ (∃ f a, e = Effect.printf f a) ∨
      (∃ i o, e = Effect.onUpdate i o) ∨ e = Effect.onTelegram := by
  intro e he
  unfold registerMeters at he
  split at he
  · rcases populate_calls _ _ _ _ e he with hp | hp | hp | hp | hp <;> simp [hp]
  · simp only [List.mem_cons, List.mem_singleton, List.not_mem_nil, or_false] at he
    rcases he with he | he
    · subst he; simp
    · subst he; simp

/-- The run when no device is detected (main.cc:137-144). -/
theorem start_no_device {LM : Type} [DecidableEq LM] (env : Env LM) (cmdline : CommandLine LM)
    (hdev : (env.detectMBusDevice cmdline.usb_device).1 = MBusDeviceType.DEVICE_UNKNOWN) :
    startUsingCommandline env cmdline =
      { trace := [Effect.createSerialCommunicationManager cmdline.exitafter, Effect.onExit,
            Effect.detectMBusDevice cmdline.usb_device,
            Effect.warning "No wmbus device found! Exiting!\n"]
          ++ (if cmdline.daemon then [Effect.sleep 1] else []),
        cmdline := cmdline, meters := [], outcome := Outcome.exit 1 } := by
  simp [startUsingCommandline, openDevice_unknown _ hdev]

/-- The run when the negotiation raises its fatal error (main.cc:156). -/
theorem start_negotiation_failed {LM : Type} [DecidableEq LM] (env : Env LM)
    (cmdline : CommandLine LM) (opened : Effect LM) (o : Outcome)
    (hopen : openDevice (env.detectMBusDevice cmdline.usb_device) = some opened)
    (hneg : (negotiate env.toMeterLinkMode cmdline).2.2 = some o) :
    (startUsingCommandline env cmdline).trace =
        [Effect.createSerialCommunicationManager cmdline.exitafter, Effect.onExit,
          Effect.detectMBusDevice cmdline.usb_device, opened]
        ++ (negotiate env.toMeterLinkMode cmdline).1 ∧
    (startUsingCommandline env cmdline).meters = [] ∧
    (startUsingCommandline env cmdline).outcome = o := by
  simp [startUsingCommandline, hopen, hneg]

/-- The run when the negotiation leaves the link mode unset (main.cc:161-163). -/
theorem start_link_mode_unset {LM : Type} [DecidableEq LM] (env : Env LM)
    (cmdline : CommandLine LM) (opened : Effect LM)
    (hopen : openDevice (env.detectMBusDevice cmdline.usb_device) = some opened)
    (hneg : (negotiate env.toMeterLinkMode cmdline).2.2 = none)
    (hunset : (negotiate env.toMeterLinkMode cmdline).2.1.1 = false) :
    (startUsingCommandline env cmdline).trace =
        [Effect.createSerialCommunicationManager cmdline.exitafter, Effect.onExit,
          Effect.detectMBusDevice cmdline.usb_device, opened]
        ++ (negotiate env.toMeterLinkMode cmdline).1 ∧
    (startUsingCommandline env cmdline).meters = [] ∧
    (startUsingCommandline env cmdline).outcome = Outcome.error
      "If you specify no meters, you have to specify the link mode: --c1 or --t1\n" [] := by
  simp [startUsingCommandline, hopen, hneg, hunset]

/-- The run when the negotiation succeeds: the mode is applied and the
registration step follows (main.cc:164-240). -/
theorem start_negotiated {LM : Type} [DecidableEq LM] (env : Env LM)
    (cmdline : CommandLine LM) (opened : Effect LM)
    (hopen : openDevice (env.detectMBusDevice cmdline.usb_device) = some opened)
    (hneg : (negotiate env.toMeterLinkMode cmdline).2.2 = none)
    (hset : (negotiate env.toMeterLinkMode cmdline).2.1.1 = true) :
    (startUsingCommandline env cmdline).trace =
        [Effect.createSerialCommunicationManager cmdline.exitafter, Effect.onExit,
          Effect.detectMBusDevice cmdline.usb_device, opened]
        ++ (negotiate env.toMeterLinkMode cmdline).1
        ++ [Effect.setLinkMode (negotiate env.toMeterLinkMode cmdline).2.1.2,
          Effect.getLinkMode, Effect.newPrinter]
        ++ (registerMeters env cmdline).1
        ++ (match (registerMeters env cmdline).2.2 with
            | some _ => []
            | none =>
              (if (env.detectMBusDevice cmdline.usb_device).1 = MBusDeviceType.DEVICE_SIMULATOR
                then [Effect.simulate] else [])
              ++ [Effect.notice "wmbusmeters waiting for telegrams\n" [], Effect.waitForStop]) ∧
    (startUsingCommandline env cmdline).meters = (registerMeters env cmdline).2.1 ∧
    (startUsingCommandline env cmdline).outcome =
      (match (registerMeters env cmdline).2.2 with
        | some o => o
        | none => Outcome.returned) ∧
    (startUsingCommandline env cmdline).cmdline.link_mode =
      (negotiate env.toMeterLinkMode cmdline).2.1.2 := by
  have hreg : ∀ (b : Bool) (lm : LM),
      registerMeters env { cmdline with link_mode_set := b, link_mode := lm }
        = registerMeters env cmdline := fun _ _ => rfl
  unfold startUsingCommandline
  simp only [hopen, hneg, hset, hreg]
  cases hr : (registerMeters env cmdline).2.2 <;> simp

/-- The only `setLinkMode` call of a run is the one of main.cc:164: it is made
only when a device was detected and the negotiation ended without error with
the link mode set, and it carries the negotiated mode. -/
theorem setLinkMode_mem {LM : Type} [DecidableEq LM] (env : Env LM) (cmdline : CommandLine LM)
    (lm : LM) (h : Effect.setLinkMode lm ∈ (startUsingCommandline env cmdline).trace) :
    (env.detectMBusDevice cmdline.usb_device).1 ≠ MBusDeviceType.DEVICE_UNKNOWN ∧
    (negotiate env.toMeterLinkMode cmdline).2 = ((true, lm), none) := by
  by_cases hdev : (env.detectMBusDevice cmdline.usb_device).1 = MBusDeviceType.DEVICE_UNKNOWN
  · rw [start_no_device env cmdline hdev] at h
    by_cases hd : cmdline.daemon = true <;> simp [hd] at h
  · refine ⟨hdev, ?_⟩
    obtain ⟨e, hopen, he⟩ := @openDevice_known LM _ hdev
    have hcons : Effect.setLinkMode lm ∉ (negotiate env.toMeterLinkMode cmdline).1 := by
      intro hm
      obtain ⟨t, ht⟩ := negotiate_consults _ _ _ hm
      cases ht
    have hne : Effect.setLinkMode lm ≠ e := by
      rcases he with he | he | he <;> rw [he] <;> simp
    cases hneg : (negotiate env.toMeterLinkMode cmdline).2.2 with
    | some o =>
      rw [(start_negotiation_failed env cmdline e o hopen hneg).1] at h
      simp [hcons, hne] at h
    | none =>
      cases hb : (negotiate env.toMeterLinkMode cmdline).2.1.1 with
      | false =>
        rw [(start_link_mode_unset env cmdline e hopen hneg hb).1] at h
        simp [hcons, hne] at h
      | true =>
        rw [(start_negotiated env cmdline e hopen hneg hb).1] at h
        have hreg : Effect.setLinkMode lm ∉ (registerMeters env cmdline).1 := by
          intro hm
          rcases registerMeters_calls _ _ _ hm with ⟨_, h⟩ | ⟨_, _, _, _, h⟩ | ⟨_, h⟩ |
            ⟨_, _, h⟩ | ⟨_, _, h⟩ | h <;> cases h
        have htail : Effect.setLinkMode lm ∉
            (match (registerMeters env cmdline).2.2 with
            | some _ => []
            | none =>
              (if (env.detectMBusDevice cmdline.usb_device).1 = MBusDeviceType.DEVICE_SIMULATOR
                then [Effect.simulate] else [])
              ++ [Effect.notice "wmbusmeters waiting for telegrams\n" [], Effect.waitForStop]) := by
          cases (registerMeters env cmdline).2.2 with
          | some _ => simp
          | none =>
            by_cases hs : (env.detectMBusDevice cmdline.usb_device).1
                = MBusDeviceType.DEVICE_SIMULATOR <;> simp [hs]
        simp only [List.mem_append, List.mem_cons, List.mem_singleton, List.not_mem_nil,
          hcons, hne, hreg, htail, or_false, false_or, Effect.setLinkMode.injEq] at h
        simp at h
        ext <;> simp [hb, hneg, h]

/-- When a device was detected and the negotiation ended without error with
the link mode set, `setLinkMode` is called with the negotiated mode. -/
theorem setLinkMode_reached {LM : Type} [DecidableEq LM] (env : Env LM)
    (cmdline : CommandLine LM) (lm : LM)
    (hdev : (env.detectMBusDevice cmdline.usb_device).1 ≠ MBusDeviceType.DEVICE_UNKNOWN)
    (hneg : (negotiate env.toMeterLinkMode cmdline).2 = ((true, lm), none)) :
    Effect.setLinkMode lm ∈ (startUsingCommandline env cmdline).trace := by
  obtain ⟨e, hopen, _⟩ := @openDevice_known LM _ hdev
  have h1 : (negotiate env.toMeterLinkMode cmdline).2.2 = none := by rw [hneg]
  have h2 : (negotiate env.toMeterLinkMode cmdline).2.1.1 = true := by rw [hneg]
  have h3 : (negotiate env.toMeterLinkMode cmdline).2.1.2 = lm := by rw [hneg]
  rw [(start_negotiated env cmdline e hopen h1 h2).1, h3]
  simp

/-- Where a call of a run can come from: the set-up of main.cc:116-122, the
exit for a missing device, the open call, the negotiation, the three calls of
main.cc:164-171, the registration step, or the closing calls of
main.cc:234-239, which are made only when the negotiation and the registration
did not end the process. -/
theorem trace_mem {LM : Type} [DecidableEq LM] (env : Env LM) (cmdline : CommandLine LM)
    (e : Effect LM) (h : e ∈ (startUsingCommandline env cmdline).trace) :
    e = Effect.createSerialCommunicationManager cmdline.exitafter ∨ e = Effect.onExit ∨
    e = Effect.detectMBusDevice cmdline.usb_device ∨
    (e = Effect.warning "No wmbus device found! Exiting!\n" ∨ e = Effect.sleep 1) ∨
    (∃ d, e = Effect.openIM871A d ∨ e = Effect.openAMB8465 d ∨ e = Effect.openSimulator d) ∨
    e ∈ (negotiate env.toMeterLinkMode cmdline).1 ∨
    (∃ lm, e = Effect.setLinkMode lm) ∨ e = Effect.getLinkMode ∨ e = Effect.newPrinter ∨
    e ∈ (registerMeters env cmdline).1 ∨
    ((registerMeters env cmdline).2.2 = none ∧
      (negotiate env.toMeterLinkMode cmdline).2.2 = none ∧
      (negotiate env.toMeterLinkMode cmdline).2.1.1 = true ∧
      (env.detectMBusDevice cmdline.usb_device).1 ≠ MBusDeviceType.DEVICE_UNKNOWN ∧
      (e = Effect.simulate ∨ e = Effect.notice "wmbusmeters waiting for telegrams\n" [] ∨
        e = Effect.waitForStop)) := by
  by_cases hdev : (env.detectMBusDevice cmdline.usb_device).1 = MBusDeviceType.DEVICE_UNKNOWN
  · rw [start_no_device env cmdline hdev] at h
    by_cases hd : cmdline.daemon = true <;> simp [hd] at h <;> tauto
  · obtain ⟨o, hopen, ho⟩ := @openDevice_known LM _ hdev
    have hopened : e = o → ∃ d, e = Effect.openIM871A d ∨ e = Effect.openAMB8465 d ∨
        e = Effect.openSimulator d := by
      intro heq
      rw [heq]
      rcases ho with ho | ho | ho <;>
        exact ⟨(env.detectMBusDevice cmdline.usb_device).2, by simp [ho]⟩
    cases hneg : (negotiate env.toMeterLinkMode cmdline).2.2 with
    | some out =>
      rw [(start_negotiation_failed env cmdline o out hopen hneg).1] at h
      simp only [List.mem_append, List.mem_cons, List.mem_singleton, List.not_mem_nil,
        or_false] at h
      rcases h with (h | h | h | h) | h
      · simp [h]
      · simp [h]
      · simp [h]
      · rcases hopened h with ⟨d, hd | hd | hd⟩ <;> simp [hd]
      · simp [h]
    | none =>
      cases hb : (negotiate env.toMeterLinkMode cmdline).2.1.1 with
      | false =>
        rw [(start_link_mode_unset env cmdline o hopen hneg hb).1] at h
        simp only [List.mem_append, List.mem_cons, List.mem_singleton, List.not_mem_nil,
          or_false] at h
        rcases h with (h | h | h | h) | h
        · simp [h]
        · simp [h]
        · simp [h]
        · rcases hopened h with ⟨d, hd | hd | hd⟩ <;> simp [hd]
        · simp [h]
      | true =>
        rw [(start_negotiated env cmdline o hopen hneg hb).1] at h
        simp only [List.mem_append, List.mem_cons, List.mem_singleton, List.not_mem_nil,
          or_false] at h
        rcases h with ((((h | h | h | h) | h) | (h | h | h)) | h) | h
        · simp [h]
        · simp [h]
        · simp [h]
        · rcases hopened h with ⟨d, hd | hd | hd⟩ <;> simp [hd]
        · simp [h]
        · simp [h]
        · simp [h]
        · simp [h]
        · simp [h]
        · cases hr : (registerMeters env cmdline).2.2 with
          | some _ => rw [hr] at h; simp at h
          | none =>
            rw [hr] at h
            by_cases hs : (env.detectMBusDevice cmdline.usb_device).1
                = MBusDeviceType.DEVICE_SIMULATOR
            · simp only [hs, if_true, List.mem_append, List.mem_cons, List.mem_singleton,
                List.not_mem_nil, or_false] at h
              rcases h with h | h | h <;> simp [h, hs]
            · simp only [hs, if_false, List.mem_append, List.mem_cons, List.mem_singleton,
                List.not_mem_nil, or_false, false_or] at h
              rcases h with h | h <;> simp [h, hdev]

/-- How the registration step can end the process. -/
theorem registerMeters_outcome {LM : Type} (env : Env LM) (cmdline : CommandLine LM) :
    (registerMeters env cmdline).2.2 = none ∨
    ((registerMeters env cmdline).2.2 = some (Outcome.exit 0) ∧ cmdline.list_shell_envs = true) ∨
    ∃ x ∈ cmdline.meters, (registerMeters env cmdline).2.2 =
      some (Outcome.error "No such meter type \"%s\"\n" [x.type]) := by
  unfold registerMeters
  split
  · exact populate_outcome _ _ _ _
  · exact Or.inl rfl

/-- How a run can end: by returning from the run loop, with `exit(1)` for a
missing device, with `exit(0)` after listing the shell environment, or with one
of the three fatal errors. -/
theorem start_outcome {LM : Type} [DecidableEq LM] (env : Env LM) (cmdline : CommandLine LM) :
    (startUsingCommandline env cmdline).outcome = Outcome.returned ∨
    ((startUsingCommandline env cmdline).outcome = Outcome.exit 1 ∧
      (env.detectMBusDevice cmdline.usb_device).1 = MBusDeviceType.DEVICE_UNKNOWN) ∨
    ((startUsingCommandline env cmdline).outcome = Outcome.exit 0 ∧
      cmdline.list_shell_envs = true) ∨
    ((startUsingCommandline env cmdline).outcome =
        Outcome.error "A different link mode has been set already.\n" [] ∧
      (negotiate env.toMeterLinkMode cmdline).2.2 =
        some (Outcome.error "A different link mode has been set already.\n" [])) ∨
    ((startUsingCommandline env cmdline).outcome = Outcome.error
        "If you specify no meters, you have to specify the link mode: --c1 or --t1\n" [] ∧
      (negotiate env.toMeterLinkMode cmdline).2.1.1 = false) ∨
    ∃ x ∈ cmdline.meters, (startUsingCommandline env cmdline).outcome =
      Outcome.error "No such meter type \"%s\"\n" [x.type] := by
  by_cases hdev : (env.detectMBusDevice cmdline.usb_device).1 = MBusDeviceType.DEVICE_UNKNOWN
  · rw [start_no_device env cmdline hdev]
    exact Or.inr (Or.inl ⟨rfl, hdev⟩)
  · obtain ⟨o, hopen, _⟩ := @openDevice_known LM _ hdev
    cases hneg : (negotiate env.toMeterLinkMode cmdline).2.2 with
    | some out =>
      rw [(start_negotiation_failed env cmdline o out hopen hneg).2.2]
      have hout : out = Outcome.error "A different link mode has been set already.\n" [] := by
        by_cases hs : cmdline.link_mode_set = true
        · rw [negotiate_set _ _ hs] at hneg; simp at hneg
        · have hs2 : cmdline.link_mode_set = false := by simpa using hs
          cases hm : cmdline.meters with
          | nil => rw [negotiate_unset_nil _ _ hs2 hm] at hneg; simp at hneg
          | cons first rest =>
            rcases negotiate_inferred env.toMeterLinkMode cmdline first rest hs2 hm with
              ⟨_, h⟩ | ⟨_, h⟩
            · rw [h] at hneg; simp at hneg
            · rw [h] at hneg; simp at hneg; exact hneg.symm
      rw [hout]
      exact Or.inr (Or.inr (Or.inr (Or.inl ⟨rfl, rfl⟩)))
    | none =>
      cases hb : (negotiate env.toMeterLinkMode cmdline).2.1.1 with
      | false =>
        rw [(start_link_mode_unset env cmdline o hopen hneg hb).2.2]
        exact Or.inr (Or.inr (Or.inr (Or.inr (Or.inl ⟨rfl, rfl⟩))))
      | true =>
        rw [(start_negotiated env cmdline o hopen hneg hb).2.2.1]
        rcases registerMeters_outcome env cmdline with h | ⟨h, hl⟩ | ⟨x, hx, h⟩
        · rw [h]; exact Or.inl rfl
        · rw [h]; exact Or.inr (Or.inr (Or.inl ⟨rfl, hl⟩))
        · rw [h]; exact Or.inr (Or.inr (Or.inr (Or.inr (Or.inr ⟨x, hx, rfl⟩))))

/-- With the mode inferred from a non-empty list of meters, a `setLinkMode`
call carries the mode of the first meter, and all later meters require it. -/
theorem setLinkMode_inferred {LM : Type} [DecidableEq LM] (env : Env LM)
    (cmdline : CommandLine LM) (first : MeterInfo) (rest : List MeterInfo)
    (hset : cmdline.link_mode_set = false) (hmeters : cmdline.meters = first :: rest)
    (lm : LM) (hlm : Effect.setLinkMode lm ∈ (startUsingCommandline env cmdline).trace) :
    lm = env.toMeterLinkMode first.type ∧
    ∀ x ∈ rest, env.toMeterLinkMode x.type = env.toMeterLinkMode first.type := by
  have h := (setLinkMode_mem env cmdline lm hlm).2
  rcases negotiate_inferred env.toMeterLinkMode cmdline first rest hset hmeters with
    ⟨hag, hneg⟩ | ⟨_, hneg⟩
  · rw [hneg] at h
    have := congrArg (fun p => p.1.2) h
    exact ⟨by simpa using this.symm, hag⟩
  · rw [hneg] at h
    simp at h

/-- With the mode set explicitly, a `setLinkMode` call carries that mode. -/
theorem setLinkMode_explicit {LM : Type} [DecidableEq LM] (env : Env LM)
    (cmdline : CommandLine LM) (hset : cmdline.link_mode_set = true)
    (lm : LM) (hlm : Effect.setLinkMode lm ∈ (startUsingCommandline env cmdline).trace) :
    lm = cmdline.link_mode := by
  have h := (setLinkMode_mem env cmdline lm hlm).2
  rw [negotiate_set env.toMeterLinkMode cmdline hset] at h
  have := congrArg (fun p => p.1.2) h
  simpa using this.symm

/-- With the mode inferred and a later meter requiring another mode than the
first, the negotiation raises the conflict error and `setLinkMode` is never
called. -/
theorem conflict_run {LM : Type} [DecidableEq LM] (env : Env LM)
    (cmdline : CommandLine LM) (first : MeterInfo) (rest : List MeterInfo)
    (hset : cmdline.link_mode_set = false) (hmeters : cmdline.meters = first :: rest)
    (hdiff : ∃ x ∈ rest, env.toMeterLinkMode x.type ≠ env.toMeterLinkMode first.type) :
    (negotiate env.toMeterLinkMode cmdline).2.2 =
      some (Outcome.error "A different link mode has been set already.\n" []) ∧
    ∀ lm, Effect.setLinkMode lm ∉ (startUsingCommandline env cmdline).trace := by
  constructor
  · rcases negotiate_inferred env.toMeterLinkMode cmdline first rest hset hmeters with
      ⟨hag, _⟩ | ⟨_, hneg⟩
    · obtain ⟨x, hx, hne⟩ := hdiff
      exact absurd (hag x hx) hne
    · rw [hneg]
  · intro lm hlm
    obtain ⟨x, hx, hne⟩ := hdiff
    exact hne ((setLinkMode_inferred env cmdline first rest hset hmeters lm hlm).2 x hx)

/-! ## Link-mode negotiation: claims C1 to C4 and C9 -/

/-- Claim C1. With no explicit link mode and a non-empty list of meters, the
negotiation of main.cc:147-163 ends without error if and only if all meters
require the same link mode; on every run that reaches the negotiation (a
device was detected) `setLinkMode` is called if and only if all meters require
the same mode; every `setLinkMode` call carries the mode required by the first
meter, which is then the mode of all meters; and when a later meter requires
another mode than the first, `setLinkMode` is never called and the run that
reaches the negotiation ends in the fatal error "A different link mode has
been set already.". -/
theorem negotiation_inferred_agreement {LM : Type} [DecidableEq LM] (env : Env LM)
    (cmdline : CommandLine LM) (first : MeterInfo) (rest : List MeterInfo)
    (hset : cmdline.link_mode_set = false) (hmeters : cmdline.meters = first :: rest) :
    ((negotiate env.toMeterLinkMode cmdline).2.2 = none ↔
      ∀ x ∈ cmdline.meters, ∀ y ∈ cmdline.meters,
        env.toMeterLinkMode x.type = env.toMeterLinkMode y.type) ∧
    ((env.detectMBusDevice cmdline.usb_device).1 ≠ MBusDeviceType.DEVICE_UNKNOWN →
      ((∃ lm, Effect.setLinkMode lm ∈ (startUsingCommandline env cmdline).trace) ↔
        ∀ x ∈ cmdline.meters, ∀ y ∈ cmdline.meters,
          env.toMeterLinkMode x.type = env.toMeterLinkMode y.type)) ∧
    (∀ lm, Effect.setLinkMode lm ∈ (startUsingCommandline env cmdline).trace →
      lm = env.toMeterLinkMode first.type ∧
      ∀ x ∈ cmdline.meters, env.toMeterLinkMode x.type = lm) ∧
    ((∃ x ∈ rest, env.toMeterLinkMode x.type ≠ env.toMeterLinkMode first.type) →
      (negotiate env.toMeterLinkMode cmdline).2.2 =
        some (Outcome.error "A different link mode has been set already.\n" []) ∧
      (∀ lm, Effect.setLinkMode lm ∉ (startUsingCommandline env cmdline).trace) ∧
      ((env.detectMBusDevice cmdline.usb_device).1 ≠ MBusDeviceType.DEVICE_UNKNOWN →
        (startUsingCommandline env cmdline).outcome =
          Outcome.error "A different link mode has been set already.\n" [])) := by
  have hagree := agree_iff_rest (fun m => env.toMeterLinkMode m.type) first rest
  simp only at hagree
  rw [hmeters, hagree]
  have hmem : ∀ x, x ∈ first :: rest →
      (∀ y ∈ rest, env.toMeterLinkMode y.type = env.toMeterLinkMode first.type) →
      env.toMeterLinkMode x.type = env.toMeterLinkMode first.type := by
    intro x hx hall
    rcases List.mem_cons.mp hx with rfl | hx
    · rfl
    · exact hall x hx
  rcases negotiate_inferred env.toMeterLinkMode cmdline first rest hset hmeters with
    ⟨hag, hneg⟩ | ⟨hdiff, hneg⟩
  · have hnodiff : ¬ ∃ x ∈ rest, env.toMeterLinkMode x.type ≠ env.toMeterLinkMode first.type :=
      fun ⟨x, hx, hne⟩ => hne (hag x hx)
    refine ⟨?_, ?_, ?_, ?_⟩
    · rw [hneg]; exact ⟨fun _ => hag, fun _ => rfl⟩
    · intro hdev
      exact ⟨fun _ => hag, fun _ => ⟨_, setLinkMode_reached env cmdline _ hdev hneg⟩⟩
    · intro lm hlm
      have h := (setLinkMode_mem env cmdline lm hlm).2
      rw [hneg] at h
      have hlm2 : lm = env.toMeterLinkMode first.type := by
        have := congrArg (fun p => p.1.2) h
        simpa using this.symm
      exact ⟨hlm2, fun x hx => by rw [hlm2]; exact hmem x hx hag⟩
    · intro hd; exact absurd hd hnodiff
  · have hnoag : ¬ ∀ x ∈ rest, env.toMeterLinkMode x.type = env.toMeterLinkMode first.type := by
      intro hall
      obtain ⟨x, hx, hne⟩ := hdiff
      exact hne (hall x hx)
    have hnever : ∀ lm, Effect.setLinkMode lm ∉ (startUsingCommandline env cmdline).trace := by
      intro lm hlm
      have h := (setLinkMode_mem env cmdline lm hlm).2
      rw [hneg] at h
      simp at h
    refine ⟨?_, ?_, ?_, ?_⟩
    · rw [hneg]; exact ⟨fun h => by simp at h, fun h => absurd h hnoag⟩
    · intro _
      constructor
      · rintro ⟨lm, hlm⟩; exact absurd hlm (hnever lm)
      · intro hall; exact absurd hall hnoag
    · intro lm hlm; exact absurd hlm (hnever lm)
    · intro _
      refine ⟨by rw [hneg], hnever, ?_⟩
      intro hdev
      obtain ⟨e, hopen, _⟩ := @openDevice_known LM _ hdev
      exact (start_negotiation_failed env cmdline e _ hopen (by rw [hneg])).2.2

/-- Claim C1, evaluated on Scenario A: both meters are of type iperl, the
negotiation succeeds and the mode of the first meter is applied. -/
theorem negotiation_inferred_agreement_witness :
    scenarioA.link_mode_set = false ∧
    scenarioA.meters =
      { name := "M1", type := "iperl", id := "11111111", key := "" } ::
        [{ name := "M2", type := "iperl", id := "22222222", key := "" }] ∧
    ((negotiate sampleEnv.toMeterLinkMode scenarioA).2.2 = none ↔
      ∀ x ∈ scenarioA.meters, ∀ y ∈ scenarioA.meters,
        sampleEnv.toMeterLinkMode x.type = sampleEnv.toMeterLinkMode y.type) ∧
    (∀ lm, Effect.setLinkMode lm ∈ (startUsingCommandline sampleEnv scenarioA).trace →
      lm = sampleEnv.toMeterLinkMode "iperl" ∧
      ∀ x ∈ scenarioA.meters, sampleEnv.toMeterLinkMode x.type = lm) :=
  ⟨rfl, rfl,
    (negotiation_inferred_agreement sampleEnv scenarioA
      { name := "M1", type := "iperl", id := "11111111", key := "" }
      [{ name := "M2", type := "iperl", id := "22222222", key := "" }] rfl rfl).1,
    (negotiation_inferred_agreement sampleEnv scenarioA
      { name := "M1", type := "iperl", id := "11111111", key := "" }
      [{ name := "M2", type := "iperl", id := "22222222", key := "" }] rfl rfl).2.2.1⟩

/-- Claim C2 is not met as stated: with no meters, no explicit link mode and no
device attached, the run ends with `exit(1)` at main.cc:143, before the
negotiation, and not with the link-mode error. -/
theorem no_meters_no_mode_without_device :
    noMetersNoMode.link_mode_set = false ∧ noMetersNoMode.meters = [] ∧
    (startUsingCommandline sampleEnvNoDevice noMetersNoMode).outcome = Outcome.exit 1 ∧
    (startUsingCommandline sampleEnvNoDevice noMetersNoMode).outcome ≠ Outcome.error
      "If you specify no meters, you have to specify the link mode: --c1 or --t1\n" [] := by
  decide

/-- Claim C2, amended. With no meters and no explicit link mode, a run for
which a device was detected ends in the fatal error "If you specify no meters,
you have to specify the link mode: --c1 or --t1", and a run for which none was
detected ends with `exit(1)` before the negotiation; either way the process
terminates with a non-zero status, `setLinkMode` is never called, the
promiscuous telegram printer is never installed and `waitForStop` is never
reached. -/
theorem no_meters_no_mode_fails {LM : Type} [DecidableEq LM] (env : Env LM)
    (cmdline : CommandLine LM)
    (hset : cmdline.link_mode_set = false) (hmeters : cmdline.meters = []) :
    ((env.detectMBusDevice cmdline.usb_device).1 ≠ MBusDeviceType.DEVICE_UNKNOWN →
      (startUsingCommandline env cmdline).outcome = Outcome.error
        "If you specify no meters, you have to specify the link mode: --c1 or --t1\n" []) ∧
    ((env.detectMBusDevice cmdline.usb_device).1 = MBusDeviceType.DEVICE_UNKNOWN →
      (startUsingCommandline env cmdline).outcome = Outcome.exit 1) ∧
    (startUsingCommandline env cmdline).outcome.failed = true ∧
    (∀ lm, Effect.setLinkMode lm ∉ (startUsingCommandline env cmdline).trace) ∧
    Effect.onTelegram ∉ (startUsingCommandline env cmdline).trace ∧
    Effect.waitForStop ∉ (startUsingCommandline env cmdline).trace := by
  have hneg := negotiate_unset_nil env.toMeterLinkMode cmdline hset hmeters
  by_cases hdev : (env.detectMBusDevice cmdline.usb_device).1 = MBusDeviceType.DEVICE_UNKNOWN
  · rw [start_no_device env cmdline hdev]
    refine ⟨fun h => absurd hdev h, fun _ => rfl, rfl, ?_, ?_, ?_⟩
    · intro lm
      by_cases hd : cmdline.daemon = true <;> simp [hd]
    · by_cases hd : cmdline.daemon = true <;> simp [hd]
    · by_cases hd : cmdline.daemon = true <;> simp [hd]
  · obtain ⟨o, hopen, ho⟩ := @openDevice_known LM _ hdev
    have h := start_link_mode_unset env cmdline o hopen (by rw [hneg]) (by rw [hneg])
    rw [hneg] at h
    rw [h.1, h.2.2]
    refine ⟨fun _ => rfl, fun h2 => absurd h2 hdev, rfl, ?_, ?_, ?_⟩
    · intro lm
      rcases ho with ho | ho | ho <;> simp [ho]
    · rcases ho with ho | ho | ho <;> simp [ho]
    · rcases ho with ho | ho | ho <;> simp [ho]

/-- Claim C2, amended, evaluated with no meters, no explicit mode and an im871a
dongle attached. -/
theorem no_meters_no_mode_fails_witness :
    noMetersNoMode.link_mode_set = false ∧ noMetersNoMode.meters = [] ∧
    (startUsingCommandline sampleEnv noMetersNoMode).outcome.failed = true ∧
    (∀ lm, Effect.setLinkMode lm ∉ (startUsingCommandline sampleEnv noMetersNoMode).trace) ∧
    Effect.onTelegram ∉ (startUsingCommandline sampleEnv noMetersNoMode).trace ∧
    Effect.waitForStop ∉ (startUsingCommandline sampleEnv noMetersNoMode).trace :=
  ⟨rfl, rfl, (no_meters_no_mode_fails sampleEnv noMetersNoMode rfl rfl).2.2⟩

/-- Claim C3. With the link mode set explicitly, whatever meters are
configured: the negotiation makes no call and leaves the explicit mode as it
is, the run ends in neither link-mode error, every `setLinkMode` call carries
the explicit mode, that call is made on every run for which a device was
detected, and `toMeterLinkMode` is never called. -/
theorem negotiation_explicit_unchanged {LM : Type} [DecidableEq LM] (env : Env LM)
    (cmdline : CommandLine LM) (hset : cmdline.link_mode_set = true) :
    negotiate env.toMeterLinkMode cmdline = ([], (true, cmdline.link_mode), none) ∧
    (startUsingCommandline env cmdline).outcome ≠
      Outcome.error "A different link mode has been set already.\n" [] ∧
    (startUsingCommandline env cmdline).outcome ≠ Outcome.error
      "If you specify no meters, you have to specify the link mode: --c1 or --t1\n" [] ∧
    (∀ lm, Effect.setLinkMode lm ∈ (startUsingCommandline env cmdline).trace →
      lm = cmdline.link_mode) ∧
    ((env.detectMBusDevice cmdline.usb_device).1 ≠ MBusDeviceType.DEVICE_UNKNOWN →
      Effect.setLinkMode cmdline.link_mode ∈ (startUsingCommandline env cmdline).trace) ∧
    (∀ t, Effect.toMeterLinkMode t ∉ (startUsingCommandline env cmdline).trace) := by
  have hneg := negotiate_set env.toMeterLinkMode cmdline hset
  refine ⟨hneg, ?_, ?_, ?_, ?_, ?_⟩
  · intro heq
    rcases start_outcome env cmdline with h | ⟨h, _⟩ | ⟨h, _⟩ | ⟨_, h⟩ | ⟨h, _⟩ | ⟨x, _, h⟩
    · rw [h] at heq; cases heq
    · rw [h] at heq; cases heq
    · rw [h] at heq; cases heq
    · rw [hneg] at h; cases h
    · rw [h] at heq; simp at heq
    · rw [h] at heq; simp at heq
  · intro heq
    rcases start_outcome env cmdline with h | ⟨h, _⟩ | ⟨h, _⟩ | ⟨h, _⟩ | ⟨_, h⟩ | ⟨x, _, h⟩
    · rw [h] at heq; cases heq
    · rw [h] at heq; cases heq
    · rw [h] at heq; cases heq
    · rw [h] at heq; simp at heq
    · rw [hneg] at h; cases h
    · rw [h] at heq; simp at heq
  · intro lm hlm
    have h := (setLinkMode_mem env cmdline lm hlm).2
    rw [hneg] at h
    have := congrArg (fun p => p.1.2) h
    simpa using this.symm
  · intro hdev
    exact setLinkMode_reached env cmdline _ hdev (by rw [hneg])
  · intro t hm
    rcases trace_mem env cmdline _ hm with h | h | h | (h | h) | ⟨_, h | h | h⟩ | h | ⟨_, h⟩ |
      h | h | h | ⟨_, _, _, _, h | h | h⟩
    all_goals first
      | cases h
      | (rw [hneg] at h; cases h)
      | (rcases registerMeters_calls _ _ _ h with ⟨_, h⟩ | ⟨_, _, _, _, h⟩ | ⟨_, h⟩ |
          ⟨_, _, h⟩ | ⟨_, _, h⟩ | h <;> cases h)

/-- Claim C3, evaluated with an explicit `--c1` and a meter of type iperl, whose
required mode in the sample table is T1. -/
theorem negotiation_explicit_unchanged_witness :
    explicitC1WithIperl.link_mode_set = true ∧
    (∀ lm, Effect.setLinkMode lm ∈ (startUsingCommandline sampleEnv explicitC1WithIperl).trace →
      lm = SampleLinkMode.C1) ∧
    Effect.setLinkMode SampleLinkMode.C1 ∈
      (startUsingCommandline sampleEnv explicitC1WithIperl).trace ∧
    (∀ t, Effect.toMeterLinkMode t ∉ (startUsingCommandline sampleEnv explicitC1WithIperl).trace) :=
  ⟨rfl, (negotiation_explicit_unchanged sampleEnv explicitC1WithIperl rfl).2.2.2.1,
    (negotiation_explicit_unchanged sampleEnv explicitC1WithIperl rfl).2.2.2.2.1 (by decide),
    (negotiation_explicit_unchanged sampleEnv explicitC1WithIperl rfl).2.2.2.2.2⟩

/-- Claim C4 is not met as stated: with an explicit `--c1` the run reaches
`setLinkMode` with C1 although the configured meter requires another mode. -/
theorem invariant_I1_broken_by_explicit_mode :
    explicitC1WithIperl.link_mode_set = true ∧
    Effect.setLinkMode SampleLinkMode.C1 ∈
      (startUsingCommandline sampleEnv explicitC1WithIperl).trace ∧
    ∃ m ∈ explicitC1WithIperl.meters, sampleEnv.toMeterLinkMode m.type ≠ SampleLinkMode.C1 := by
  decide

/-- Claim C4, amended. In every run that reaches `setLinkMode`: when the link
mode was inferred (`link_mode_set` false on entry), every configured meter
requires the mode assigned to the device; when it was given explicitly, the
mode assigned is the explicit one, whatever the meters require. -/
theorem invariant_I1_inferred {LM : Type} [DecidableEq LM] (env : Env LM)
    (cmdline : CommandLine LM) (lm : LM)
    (hrun : Effect.setLinkMode lm ∈ (startUsingCommandline env cmdline).trace) :
    (cmdline.link_mode_set = false →
      ∀ m ∈ cmdline.meters, env.toMeterLinkMode m.type = lm) ∧
    (cmdline.link_mode_set = true → lm = cmdline.link_mode) := by
  constructor
  · intro hset
    cases hm : cmdline.meters with
    | nil =>
      have h := (setLinkMode_mem env cmdline lm hrun).2
      rw [negotiate_unset_nil _ _ hset hm] at h
      simp at h
    | cons first rest =>
      have h := setLinkMode_inferred env cmdline first rest hset hm lm hrun
      intro m hmem
      rcases List.mem_cons.mp hmem with rfl | hmem
      · exact h.1.symm
      · rw [h.2 m hmem]; exact h.1.symm
  · intro hset
    exact setLinkMode_explicit env cmdline hset lm hrun

/-- Claim C4, amended, evaluated on Scenario A, where the mode is inferred. -/
theorem invariant_I1_inferred_witness :
    Effect.setLinkMode SampleLinkMode.T1 ∈ (startUsingCommandline sampleEnv scenarioA).trace ∧
    (scenarioA.link_mode_set = false →
      ∀ m ∈ scenarioA.meters, sampleEnv.toMeterLinkMode m.type = SampleLinkMode.T1) ∧
    (scenarioA.link_mode_set = true → SampleLinkMode.T1 = scenarioA.link_mode) :=
  ⟨by decide, invariant_I1_inferred sampleEnv scenarioA SampleLinkMode.T1 (by decide)⟩

/-- Claim C9 is not met as stated: in Scenario B the run ends in the link-mode
error, and the device detection and the device open call precede it. -/
theorem scenarioB_device_calls_precede_failure :
    scenarioB.link_mode_set = false ∧
    sampleEnv.toMeterLinkMode "multical21" ≠ sampleEnv.toMeterLinkMode "omnipower" ∧
    (startUsingCommandline sampleEnv scenarioB).outcome =
      Outcome.error "A different link mode has been set already.\n" [] ∧
    (startUsingCommandline sampleEnv scenarioB).trace =
      [Effect.createSerialCommunicationManager 0, Effect.onExit,
        Effect.detectMBusDevice "auto", Effect.openIM871A "/dev/im871a",
        Effect.toMeterLinkMode "multical21", Effect.toMeterLinkMode "omnipower"] := by
  decide

/-- Claim C9, amended. With no explicit link mode and a later meter requiring
another mode than the first: a run for which a device was detected ends in the
fatal error "A different link mode has been set already." after the device
detection and the device open call, the calls before the failure being
`createSerialCommunicationManager`, `onExit`, `detectMBusDevice`, one open call
and `toMeterLinkMode` calls; a run for which no device was detected ends with
`exit(1)`; in both `setLinkMode` is never called, no decoder is constructed and
the registry stays empty. -/
theorem link_mode_conflict_after_device_open {LM : Type} [DecidableEq LM] (env : Env LM)
    (cmdline : CommandLine LM) (first : MeterInfo) (rest : List MeterInfo)
    (hset : cmdline.link_mode_set = false) (hmeters : cmdline.meters = first :: rest)
    (hdiff : ∃ x ∈ rest, env.toMeterLinkMode x.type ≠ env.toMeterLinkMode first.type) :
    ((env.detectMBusDevice cmdline.usb_device).1 ≠ MBusDeviceType.DEVICE_UNKNOWN →
      (startUsingCommandline env cmdline).outcome =
        Outcome.error "A different link mode has been set already.\n" [] ∧
      ∃ opened consults,
        (opened = Effect.openIM871A (env.detectMBusDevice cmdline.usb_device).2 ∨
          opened = Effect.openAMB8465 (env.detectMBusDevice cmdline.usb_device).2 ∨
          opened = Effect.openSimulator (env.detectMBusDevice cmdline.usb_device).2) ∧
        (∀ e ∈ consults, ∃ t, e = Effect.toMeterLinkMode t) ∧
        (startUsingCommandline env cmdline).trace =
          [Effect.createSerialCommunicationManager cmdline.exitafter, Effect.onExit,
            Effect.detectMBusDevice cmdline.usb_device, opened] ++ consults) ∧
    ((env.detectMBusDevice cmdline.usb_device).1 = MBusDeviceType.DEVICE_UNKNOWN →
      (startUsingCommandline env cmdline).outcome = Outcome.exit 1) ∧
    (∀ lm, Effect.setLinkMode lm ∉ (startUsingCommandline env cmdline).trace) ∧
    (∀ e ∈ (startUsingCommandline env cmdline).trace, e.isCreate = false) ∧
    (startUsingCommandline env cmdline).meters = [] := by
  have hC1 := conflict_run env cmdline first rest hset hmeters hdiff
  by_cases hdev : (env.detectMBusDevice cmdline.usb_device).1 = MBusDeviceType.DEVICE_UNKNOWN
  · refine ⟨fun h => absurd hdev h, fun _ => ?_, hC1.2, ?_, ?_⟩
    · rw [start_no_device env cmdline hdev]
    · rw [start_no_device env cmdline hdev]
      by_cases hd : cmdline.daemon = true <;> simp [hd, Effect.isCreate]
    · rw [start_no_device env cmdline hdev]
  · obtain ⟨o, hopen, ho⟩ := @openDevice_known LM _ hdev
    have h := start_negotiation_failed env cmdline o _ hopen hC1.1
    refine ⟨fun _ => ⟨h.2.2, o, _, ho, negotiate_consults _ _, h.1⟩,
      fun h2 => absurd h2 hdev, hC1.2, ?_, h.2.1⟩
    rw [h.1]
    intro e he
    simp only [List.mem_append, List.mem_cons, List.mem_singleton, List.not_mem_nil,
      or_false] at he
    rcases he with (he | he | he | he) | he
    · rw [he]; rfl
    · rw [he]; rfl
    · rw [he]; rfl
    · rw [he]; rcases ho with ho | ho | ho <;> rw [ho] <;> rfl
    · obtain ⟨t, ht⟩ := negotiate_consults _ _ e he
      rw [ht]; rfl

/-- Claim C9, amended, evaluated on Scenario B. -/
theorem link_mode_conflict_after_device_open_witness :
    scenarioB.link_mode_set = false ∧
    (∃ x ∈ [({ name := "Power", type := "omnipower", id := "22222222", key := "" } : MeterInfo)],
      sampleEnv.toMeterLinkMode x.type ≠ sampleEnv.toMeterLinkMode "multical21") ∧
    (∀ lm, Effect.setLinkMode lm ∉ (startUsingCommandline sampleEnv scenarioB).trace) ∧
    (∀ e ∈ (startUsingCommandline sampleEnv scenarioB).trace, e.isCreate = false) ∧
    (startUsingCommandline sampleEnv scenarioB).meters = [] :=
  ⟨rfl, by decide,
    (link_mode_conflict_after_device_open sampleEnv scenarioB
      { name := "Water", type := "multical21", id := "11111111", key := "" }
      [{ name := "Power", type := "omnipower", id := "22222222", key := "" }]
      rfl rfl (by decide)).2.2⟩

/-! ## Registration of the meters: claims C7 and C10 -/

/-- The switch has no constructor exactly for `UNKNOWN_METER`. -/
theorem decoderFor_eq_none (t : MeterType) :
    decoderFor t = none ↔ t = MeterType.UNKNOWN_METER := by
  cases t <;> simp [decoderFor]

/-- Instances that correspond to configured meters one by one carry their
names, in the same order. -/
theorem names_of_registered {LM : Type} (env : Env LM) (news : List Meter)
    (ms : List MeterInfo)
    (h : List.Forall₂ (fun (mt : Meter) (m : MeterInfo) =>
        decoderFor (env.toMeterType m.type) = some mt.decoder ∧ mt.name = m.name ∧
        mt.id = m.id ∧ mt.key = m.key ∧ mt.numUpdates = 0) news ms) :
    news.map Meter.name = ms.map MeterInfo.name := by
  induction h with
  | nil => rfl
  | cons hab _ ih => simp [hab.2.1, ih]

/-- A run that reaches `setLinkMode` goes on to the registration step: its
registry and its outcome are those of that step, and it reaches `waitForStop`
exactly when that step does not end the process. -/
theorem registration_of_run {LM : Type} [DecidableEq LM] (env : Env LM)
    (cmdline : CommandLine LM) (lm : LM)
    (hrun : Effect.setLinkMode lm ∈ (startUsingCommandline env cmdline).trace) :
    (startUsingCommandline env cmdline).meters = (registerMeters env cmdline).2.1 ∧
    (startUsingCommandline env cmdline).outcome =
      (match (registerMeters env cmdline).2.2 with
        | some o => o
        | none => Outcome.returned) ∧
    (Effect.waitForStop ∈ (startUsingCommandline env cmdline).trace ↔
      (registerMeters env cmdline).2.2 = none) ∧
    ((startUsingCommandline env cmdline).trace.filter Effect.isCreate).length =
      ((registerMeters env cmdline).1.filter Effect.isCreate).length := by
  obtain ⟨hdev, hneg⟩ := setLinkMode_mem env cmdline lm hrun
  obtain ⟨o, hopen, ho⟩ := @openDevice_known LM _ hdev
  have h := start_negotiated env cmdline o hopen (by rw [hneg]) (by rw [hneg])
  have hcons : (negotiate env.toMeterLinkMode cmdline).1.filter Effect.isCreate = [] := by
    rw [List.filter_eq_nil_iff]
    intro e he
    obtain ⟨t, ht⟩ := negotiate_consults _ _ e he
    rw [ht]; simp [Effect.isCreate]
  have hopened : o.isCreate = false := by
    rcases ho with ho | ho | ho <;> rw [ho] <;> rfl
  refine ⟨h.2.1, h.2.2.1, ?_, ?_⟩
  · constructor
    · intro hw
      rcases trace_mem env cmdline _ hw with h | h | h | (h | h) | ⟨_, h | h | h⟩ | h |
        ⟨_, h⟩ | h | h | h | ⟨h, _⟩
      all_goals first
        | exact h
        | cases h
        | (obtain ⟨_, ht⟩ := negotiate_consults _ _ _ h; cases ht)
        | (rcases registerMeters_calls _ _ _ h with ⟨_, h⟩ | ⟨_, _, _, _, h⟩ | ⟨_, h⟩ |
            ⟨_, _, h⟩ | ⟨_, _, h⟩ | h <;> cases h)
    · intro hr
      rw [h.1, hr]
      simp
  · rw [h.1]
    have e1 : (Effect.createSerialCommunicationManager cmdline.exitafter : Effect LM).isCreate
        = false := rfl
    have e2 : (Effect.onExit : Effect LM).isCreate = false := rfl
    have e3 : (Effect.detectMBusDevice cmdline.usb_device : Effect LM).isCreate = false := rfl
    have e4 : ∀ x : LM, (Effect.setLinkMode x).isCreate = false := fun _ => rfl
    have e5 : (Effect.getLinkMode : Effect LM).isCreate = false := rfl
    have e6 : (Effect.newPrinter : Effect LM).isCreate = false := rfl
    have e7 : (Effect.simulate : Effect LM).isCreate = false := rfl
    have e8 : (Effect.notice "wmbusmeters waiting for telegrams\n" [] : Effect LM).isCreate
        = false := rfl
    have e9 : (Effect.waitForStop : Effect LM).isCreate = false := rfl
    cases hr : (registerMeters env cmdline).2.2 with
    | some _ =>
      simp only [List.filter_append, List.filter_cons, List.filter_nil, hcons, hopened,
        e1, e2, e3, e4, e5, e6]
      simp
    | none =>
      by_cases hs : (env.detectMBusDevice cmdline.usb_device).1
          = MBusDeviceType.DEVICE_SIMULATOR
      · simp only [List.filter_append, List.filter_cons, List.filter_nil, hcons, hopened,
          e1, e2, e3, e4, e5, e6, e7, e8, e9, hs]
        simp [e7, e8, e9]
      · simp only [List.filter_append, List.filter_cons, List.filter_nil, hcons, hopened,
          e1, e2, e3, e4, e5, e6, e7, e8, e9, hs]
        simp [e7, e8, e9]

/-- With meters configured, the registration step is the population loop. -/
theorem registerMeters_cons {LM : Type} (env : Env LM) (cmdline : CommandLine LM)
    (h : cmdline.meters ≠ []) :
    registerMeters env cmdline = populate env cmdline.list_shell_envs cmdline.meters [] := by
  unfold registerMeters
  have : cmdline.meters.length > 0 := List.length_pos.mpr h
  simp [this]

/-- Claim C7 is not met as stated: the run passes the negotiation, the second
configured meter has an unrecognised type, and yet, the shell-environment
listing being requested, the run ends with `exit(0)` after the first meter and
raises no "No such meter type" error. -/
theorem listing_hides_unknown_type :
    Effect.setLinkMode SampleLinkMode.T1 ∈
      (startUsingCommandline sampleEnv listEnvsWithBogus).trace ∧
    (∃ m ∈ listEnvsWithBogus.meters,
      sampleEnv.toMeterType m.type = MeterType.UNKNOWN_METER ∧ m.type = "bogus") ∧
    (startUsingCommandline sampleEnv listEnvsWithBogus).outcome = Outcome.exit 0 ∧
    (startUsingCommandline sampleEnv listEnvsWithBogus).outcome ≠
      Outcome.error "No such meter type \"%s\"\n" ["bogus"] := by
  decide

/-- Claim C7, amended. In a run that passes the link-mode negotiation (it
reaches `setLinkMode`) and for which the shell-environment listing is not
requested: if some configured meter has an unrecognised type, the run ends in
the fatal error "No such meter type" carrying the type string of the first
such meter, the registry holds one instance for each meter before it and no
other, as many decoders were constructed, and `waitForStop` is not reached; if
every type is recognised, the run raises no error, the registry holds one
instance per configured meter in configuration order, and `waitForStop` is
reached. With the listing requested, the loop ends at the first configured
meter, with that fatal error if its type is unrecognised and with `exit(0)`
otherwise, and `waitForStop` is not reached. -/
theorem registration_unknown_type {LM : Type} [DecidableEq LM] (env : Env LM)
    (cmdline : CommandLine LM) (lm : LM)
    (hrun : Effect.setLinkMode lm ∈ (startUsingCommandline env cmdline).trace) :
    (cmdline.list_shell_envs = false →
      ∀ pre bad post, cmdline.meters = pre ++ bad :: post →
        (∀ x ∈ pre, env.toMeterType x.type ≠ MeterType.UNKNOWN_METER) →
        env.toMeterType bad.type = MeterType.UNKNOWN_METER →
        (startUsingCommandline env cmdline).outcome =
          Outcome.error "No such meter type \"%s\"\n" [bad.type] ∧
        List.Forall₂ (fun (mt : Meter) (m : MeterInfo) =>
          decoderFor (env.toMeterType m.type) = some mt.decoder ∧ mt.name = m.name ∧
          mt.id = m.id ∧ mt.key = m.key ∧ mt.numUpdates = 0)
          (startUsingCommandline env cmdline).meters pre ∧
        ((startUsingCommandline env cmdline).trace.filter Effect.isCreate).length = pre.length ∧
        Effect.waitForStop ∉ (startUsingCommandline env cmdline).trace) ∧
    (cmdline.list_shell_envs = false →
      (∀ x ∈ cmdline.meters, env.toMeterType x.type ≠ MeterType.UNKNOWN_METER) →
        (startUsingCommandline env cmdline).outcome = Outcome.returned ∧
        List.Forall₂ (fun (mt : Meter) (m : MeterInfo) =>
          decoderFor (env.toMeterType m.type) = some mt.decoder ∧ mt.name = m.name ∧
          mt.id = m.id ∧ mt.key = m.key ∧ mt.numUpdates = 0)
          (startUsingCommandline env cmdline).meters cmdline.meters ∧
        Effect.waitForStop ∈ (startUsingCommandline env cmdline).trace) ∧
    (cmdline.list_shell_envs = true →
      ∀ first rest, cmdline.meters = first :: rest →
        Effect.waitForStop ∉ (startUsingCommandline env cmdline).trace ∧
        (env.toMeterType first.type = MeterType.UNKNOWN_METER →
          (startUsingCommandline env cmdline).outcome =
            Outcome.error "No such meter type \"%s\"\n" [first.type] ∧
          (startUsingCommandline env cmdline).meters = []) ∧
        (env.toMeterType first.type ≠ MeterType.UNKNOWN_METER →
          (startUsingCommandline env cmdline).outcome = Outcome.exit 0 ∧
          (startUsingCommandline env cmdline).meters.length = 1)) := by
  obtain ⟨hmeters, hout, hwait, hcount⟩ := registration_of_run env cmdline lm hrun
  refine ⟨?_, ?_, ?_⟩
  · intro hlist pre bad post hm hpre hbad
    have hne : cmdline.meters ≠ [] := by rw [hm]; simp
    have hreg := registerMeters_cons env cmdline hne
    rw [hlist, hm] at hreg
    obtain ⟨news, h1, h2⟩ := populate_unknown env pre post bad []
      (fun x hx => fun hd => hpre x hx ((decoderFor_eq_none _).mp hd))
      ((decoderFor_eq_none _).mpr hbad)
    have hcr := populate_creates env false (pre ++ bad :: post) []
    rw [← hreg] at h1 hcr
    have h21 : (registerMeters env cmdline).2.1 = news := by rw [h1]; simp
    have h22 : (registerMeters env cmdline).2.2 =
        some (Outcome.error "No such meter type \"%s\"\n" [bad.type]) := by rw [h1]
    refine ⟨?_, ?_, ?_, ?_⟩
    · rw [hout, h22]
    · rw [hmeters, h21]; exact h2
    · rw [hcount]
      rw [h21] at hcr
      simp only [List.length_nil, Nat.add_zero] at hcr
      rw [hcr]; exact h2.length_eq
    · rw [hwait, h22]; simp
  · intro hlist hall
    by_cases hne : cmdline.meters = []
    · have hreg : registerMeters env cmdline =
          ([Effect.printf "No meters configured. Printing id:s of all telegrams heard!\n\n" [],
            Effect.onTelegram], [], none) := by
        simp [registerMeters, hne]
      refine ⟨?_, ?_, ?_⟩
      · rw [hout, hreg]
      · rw [hmeters, hreg, hne]; exact List.Forall₂.nil
      · rw [hwait, hreg]
    · have hreg := registerMeters_cons env cmdline hne
      rw [hlist] at hreg
      obtain ⟨news, h1, h2⟩ := populate_known env cmdline.meters []
        (fun x hx => fun hd => hall x hx ((decoderFor_eq_none _).mp hd))
      rw [← hreg] at h1
      have h21 : (registerMeters env cmdline).2.1 = news := by rw [h1]; simp
      have h22 : (registerMeters env cmdline).2.2 = none := by rw [h1]
      refine ⟨?_, ?_, ?_⟩
      · rw [hout, h22]
      · rw [hmeters, h21]; exact h2
      · rw [hwait, h22]
  · intro hlist first rest hm
    have hne : cmdline.meters ≠ [] := by rw [hm]; simp
    have hreg := registerMeters_cons env cmdline hne
    rw [hlist, hm] at hreg
    have hp := populate_list_shell_envs env first rest []
    rw [← hreg] at hp
    cases hd : decoderFor (env.toMeterType first.type) with
    | none =>
      rw [hd] at hp
      have hU := (decoderFor_eq_none _).mp hd
      refine ⟨?_, fun _ => ⟨?_, ?_⟩, fun h => absurd hU h⟩
      · rw [hwait, hp]; simp
      · rw [hout, hp]
      · rw [hmeters, hp]
    | some d =>
      rw [hd] at hp
      have hU : env.toMeterType first.type ≠ MeterType.UNKNOWN_METER := by
        intro h
        rw [(decoderFor_eq_none _).mpr h] at hd
        cases hd
      refine ⟨?_, fun h => absurd h hU, fun _ => ⟨?_, ?_⟩⟩
      · rw [hwait, hp]; simp
      · rw [hout, hp]
      · rw [hmeters, hp]; simp

/-- Claim C7, amended, evaluated on a meter of type iperl followed by a meter of
an unrecognised type, without the shell-environment listing. -/
theorem registration_unknown_type_witness :
    Effect.setLinkMode SampleLinkMode.T1 ∈
      (startUsingCommandline sampleEnv iperlThenBogus).trace ∧
    (startUsingCommandline sampleEnv iperlThenBogus).outcome =
      Outcome.error "No such meter type \"%s\"\n" ["bogus"] ∧
    ((startUsingCommandline sampleEnv iperlThenBogus).trace.filter Effect.isCreate).length = 1 ∧
    Effect.waitForStop ∉ (startUsingCommandline sampleEnv iperlThenBogus).trace :=
  ⟨by decide,
    ((registration_unknown_type sampleEnv iperlThenBogus SampleLinkMode.T1 (by decide)).1 rfl
      [{ name := "M1", type := "iperl", id := "11111111", key := "" }]
      { name := "M2", type := "bogus", id := "22222222", key := "" } [] rfl
      (by decide) (by decide)).1,
    ((registration_unknown_type sampleEnv iperlThenBogus SampleLinkMode.T1 (by decide)).1 rfl
      [{ name := "M1", type := "iperl", id := "11111111", key := "" }]
      { name := "M2", type := "bogus", id := "22222222", key := "" } [] rfl
      (by decide) (by decide)).2.2.1,
    ((registration_unknown_type sampleEnv iperlThenBogus SampleLinkMode.T1 (by decide)).1 rfl
      [{ name := "M1", type := "iperl", id := "11111111", key := "" }]
      { name := "M2", type := "bogus", id := "22222222", key := "" } [] rfl
      (by decide) (by decide)).2.2.2⟩

/-- Claim C10 is not met as stated: two configured meters of a recognised type
that share the name M1 are both registered, no error is raised, and the
registry holds two instances named M1. -/
theorem same_name_registered_twice :
    (∀ m ∈ sameNameTwice.meters, sampleEnv.toMeterType m.type ≠ MeterType.UNKNOWN_METER) ∧
    (startUsingCommandline sampleEnv sameNameTwice).outcome = Outcome.returned ∧
    (startUsingCommandline sampleEnv sameNameTwice).meters.map Meter.name = ["M1", "M1"] ∧
    ¬ ((startUsingCommandline sampleEnv sameNameTwice).meters.map Meter.name).Nodup := by
  decide

/-- Claim C10, amended. In a run that passes the link-mode negotiation, for
which the shell-environment listing is not requested and all configured meter
types are recognised, no registration is rejected and the registry carries the
configured names in configuration order; so the names of the registry are
pairwise distinct if and only if the configured names are. -/
theorem registry_names_are_configured_names {LM : Type} [DecidableEq LM] (env : Env LM)
    (cmdline : CommandLine LM) (lm : LM)
    (hrun : Effect.setLinkMode lm ∈ (startUsingCommandline env cmdline).trace)
    (hlist : cmdline.list_shell_envs = false)
    (hall : ∀ x ∈ cmdline.meters, env.toMeterType x.type ≠ MeterType.UNKNOWN_METER) :
    (startUsingCommandline env cmdline).outcome = Outcome.returned ∧
    (startUsingCommandline env cmdline).meters.map Meter.name =
      cmdline.meters.map MeterInfo.name ∧
    (((startUsingCommandline env cmdline).meters.map Meter.name).Nodup ↔
      (cmdline.meters.map MeterInfo.name).Nodup) := by
  obtain ⟨hmeters, hout, _, _⟩ := registration_of_run env cmdline lm hrun
  have hnames : (startUsingCommandline env cmdline).meters.map Meter.name =
      cmdline.meters.map MeterInfo.name ∧
      (registerMeters env cmdline).2.2 = none := by
    by_cases hne : cmdline.meters = []
    · have hreg : registerMeters env cmdline =
          ([Effect.printf "No meters configured. Printing id:s of all telegrams heard!\n\n" [],
            Effect.onTelegram], [], none) := by
        simp [registerMeters, hne]
      rw [hmeters, hreg, hne]
      exact ⟨rfl, rfl⟩
    · have hreg := registerMeters_cons env cmdline hne
      rw [hlist] at hreg
      obtain ⟨news, h1, h2⟩ := populate_known env cmdline.meters []
        (fun x hx => fun hd => hall x hx ((decoderFor_eq_none _).mp hd))
      rw [← hreg] at h1
      have h21 : (registerMeters env cmdline).2.1 = news := by rw [h1]; simp
      have h22 : (registerMeters env cmdline).2.2 = none := by rw [h1]
      rw [hmeters, h21]
      exact ⟨names_of_registered env news _ h2, h22⟩
  refine ⟨?_, hnames.1, ?_⟩
  · rw [hout, hnames.2]
  · rw [hnames.1]

/-- Claim C10, amended, evaluated on Scenario A, whose two names differ. -/
theorem registry_names_are_configured_names_witness :
    Effect.setLinkMode SampleLinkMode.T1 ∈ (startUsingCommandline sampleEnv scenarioA).trace ∧
    scenarioA.list_shell_envs = false ∧
    (∀ x ∈ scenarioA.meters, sampleEnv.toMeterType x.type ≠ MeterType.UNKNOWN_METER) ∧
    (startUsingCommandline sampleEnv scenarioA).outcome = Outcome.returned ∧
    (startUsingCommandline sampleEnv scenarioA).meters.map Meter.name =
      scenarioA.meters.map MeterInfo.name ∧
    (((startUsingCommandline sampleEnv scenarioA).meters.map Meter.name).Nodup ↔
      (scenarioA.meters.map MeterInfo.name).Nodup) :=
  ⟨by decide, rfl, by decide,
    registry_names_are_configured_names sampleEnv scenarioA SampleLinkMode.T1
      (by decide) rfl (by decide)⟩

/-! ## The one-shot check: claims C5 and C6 -/

/-- The loop of `oneshotCheck` runs to its end exactly when no meter of the
registry has an update count of 0. -/
theorem oneshotLoop_iff (meters : List Meter) :
    oneshotLoop meters = true ↔ ∀ m ∈ meters, m.numUpdates ≠ 0 := by
  induction meters with
  | nil => simp [oneshotLoop]
  | cons m rest ih =>
    unfold oneshotLoop
    by_cases h : m.numUpdates = 0
    · simp [h]
    · simp [h, ih]

/-- Claim C5. `oneshotCheck` calls `manager->stop()` (once) if and only if
one-shot mode is enabled and every meter of the registry has at least one
update, and makes no call otherwise; with one-shot disabled it changes nothing;
with one-shot enabled it stops exactly when no meter has an update count of 0;
the result does not depend on the meter that triggered the call; the registry,
and so every update count, is left as it was. -/
theorem oneshotCheck_stop_iff {LM : Type} (cmdline : CommandLine LM) (meter : Meter)
    (w : World) :
    ((oneshotCheck cmdline meter w).stops = w.stops + 1 ↔
      (cmdline.oneshot = true ∧ ∀ m ∈ w.meters, 1 ≤ m.numUpdates)) ∧
    ((oneshotCheck cmdline meter w).stops = w.stops ↔
      ¬ (cmdline.oneshot = true ∧ ∀ m ∈ w.meters, 1 ≤ m.numUpdates)) ∧
    (cmdline.oneshot = false → oneshotCheck cmdline meter w = w) ∧
    (cmdline.oneshot = true →
      ((oneshotCheck cmdline meter w).stops = w.stops + 1 ↔
        ¬ ∃ m ∈ w.meters, m.numUpdates = 0)) ∧
    (∀ other : Meter, oneshotCheck cmdline other w = oneshotCheck cmdline meter w) ∧
    (oneshotCheck cmdline meter w).meters = w.meters ∧
    (oneshotCheck cmdline meter w).meters.map Meter.numUpdates =
      w.meters.map Meter.numUpdates := by
  have hloop := oneshotLoop_iff w.meters
  have hpos : (∀ m ∈ w.meters, 1 ≤ m.numUpdates) ↔ ∀ m ∈ w.meters, m.numUpdates ≠ 0 :=
    ⟨fun h m hm => by have := h m hm; omega, fun h m hm => by have := h m hm; omega⟩
  have hex : (¬ ∃ m ∈ w.meters, m.numUpdates = 0) ↔ ∀ m ∈ w.meters, m.numUpdates ≠ 0 := by
    simp
  rw [hpos, hex, ← hloop]
  cases ho : cmdline.oneshot <;> cases hl : oneshotLoop w.meters <;>
    simp [oneshotCheck, ho, hl]

/-- Claim C5, evaluated on Scenario A before any update and with one-shot
disabled. -/
theorem oneshotCheck_stop_iff_witness :
    (oneshotCheck scenarioA meterM1 scenarioAWorld).stops = scenarioAWorld.stops ∧
    oneshotCheck scenarioANoOneshot meterM1 scenarioAWorld = scenarioAWorld :=
  ⟨((oneshotCheck_stop_iff scenarioA meterM1 scenarioAWorld).2.1).mpr (by decide),
    (oneshotCheck_stop_iff scenarioANoOneshot meterM1 scenarioAWorld).2.2.1 rfl⟩

/-- The update count at a position inside the registry. -/
theorem updatesAt_lt (meters : List Meter) (j : Nat) (h : j < meters.length) :
    updatesAt meters j = (meters.get ⟨j, h⟩).numUpdates := by
  simp [updatesAt, List.getElem?_eq_getElem h]

/-- The update count past the end of the registry. -/
theorem updatesAt_ge (meters : List Meter) (j : Nat) (h : meters.length ≤ j) :
    updatesAt meters j = 0 := by
  simp [updatesAt, List.getElem?_eq_none h]

/-- The loop of `oneshotCheck` runs to its end exactly when every position of
the registry has a non-zero update count. -/
theorem oneshotLoop_updatesAt (meters : List Meter) :
    oneshotLoop meters = true ↔ ∀ j, j < meters.length → updatesAt meters j ≠ 0 := by
  rw [oneshotLoop_iff]
  constructor
  · intro h j hj
    rw [updatesAt_lt meters j hj]
    exact h _ (List.get_mem _ _ _)
  · intro h m hm
    obtain ⟨n, hn⟩ := List.get_of_mem hm
    have := h n.1 n.2
    rw [updatesAt_lt meters n.1 n.2] at this
    rw [← hn]
    exact this

/-- The delivery of an update to position `i` leaves the size of the registry
as it is, adds one to the update count at `i` and leaves the other update
counts as they are. -/
theorem notify_meters {LM : Type} (cmdline : CommandLine LM) (i : Nat) (w : World)
    (hi : i < w.meters.length) :
    (notify cmdline i w).meters.length = w.meters.length ∧
    ∀ j, updatesAt (notify cmdline i w).meters j =
      updatesAt w.meters j + (if j = i then 1 else 0) := by
  have hget : w.meters.get? i = some (w.meters.get ⟨i, hi⟩) := List.get?_eq_get hi
  have hm : (notify cmdline i w).meters =
      w.meters.set i { w.meters.get ⟨i, hi⟩ with
        numUpdates := (w.meters.get ⟨i, hi⟩).numUpdates + 1 } := by
    unfold notify
    rw [hget]
    simp only [oneshotCheck, printUpdate]
    split
    · rfl
    · split <;> rfl
  rw [hm]
  refine ⟨by simp, ?_⟩
  intro j
  by_cases hj : j = i
  · subst hj
    simp [updatesAt, List.getElem?_set, hi, List.getElem?_eq_getElem hi]
  · have hj2 : ¬ i = j := fun h => hj h.symm
    simp [updatesAt, List.getElem?_set, hj, hj2]

/-- The delivery of an update calls `manager->stop()` exactly when one-shot
mode is enabled and, after the update, no meter has an update count of 0. -/
theorem notify_stops {LM : Type} (cmdline : CommandLine LM) (i : Nat) (w : World)
    (hi : i < w.meters.length) :
    (w.stops < (notify cmdline i w).stops ↔
      (cmdline.oneshot = true ∧ oneshotLoop (notify cmdline i w).meters = true)) := by
  have hget : w.meters.get? i = some (w.meters.get ⟨i, hi⟩) := List.get?_eq_get hi
  unfold notify
  rw [hget]
  simp only [oneshotCheck, printUpdate]
  cases ho : cmdline.oneshot
  · simp
  · cases hl : oneshotLoop (w.meters.set i { w.meters.get ⟨i, hi⟩ with
        numUpdates := (w.meters.get ⟨i, hi⟩).numUpdates + 1 })
    · simp
      exact hl
    · simp
      exact hl

/-- What each delivered update reports: the check run by update `k` calls
`manager->stop()` exactly when, counting the updates delivered up to and
including `k`, no meter of the registry is left with an update count of 0. -/
theorem deliver_flags {LM : Type} (cmdline : CommandLine LM)
    (honeshot : cmdline.oneshot = true) (us : List Nat) :
    ∀ w : World, (∀ i ∈ us, i < w.meters.length) →
      (deliver cmdline us w).1.length = us.length ∧
      ∀ k, k < us.length →
        (deliver cmdline us w).1.get? k = some (decide (∀ j, j < w.meters.length →
          updatesAt w.meters j + (us.take (k + 1)).count j ≠ 0)) := by
  induction us with
  | nil =>
    intro w _
    exact ⟨rfl, fun k hk => absurd hk (Nat.not_lt_zero k)⟩
  | cons i rest ih =>
    intro w hus
    have hi : i < w.meters.length := hus i (List.mem_cons_self _ _)
    obtain ⟨hlen, hupd⟩ := notify_meters cmdline i w hi
    have hrest : ∀ x ∈ rest, x < (notify cmdline i w).meters.length := by
      intro x hx
      rw [hlen]
      exact hus x (List.mem_cons_of_mem _ hx)
    obtain ⟨ih1, ih2⟩ := ih (notify cmdline i w) hrest
    have hd : (deliver cmdline (i :: rest) w).1 =
        decide (w.stops < (notify cmdline i w).stops) ::
          (deliver cmdline rest (notify cmdline i w)).1 := rfl
    rw [hd]
    refine ⟨by simp [ih1], ?_⟩
    intro k hk
    cases k with
    | zero =>
      simp only [List.get?_cons_zero, Nat.zero_add, List.take_succ_cons, List.take_zero,
        Option.some.injEq]
      apply decide_eq_decide.mpr
      rw [notify_stops cmdline i w hi, oneshotLoop_updatesAt, hlen]
      constructor
      · rintro ⟨_, h⟩ j hj
        have := h j hj
        rw [hupd j] at this
        by_cases hji : j = i
        · simp [hji]
        · simpa [hji, List.count_singleton, Ne.symm hji] using this
      · intro h
        refine ⟨honeshot, fun j hj => ?_⟩
        rw [hupd j]
        have := h j hj
        by_cases hji : j = i
        · simp [hji]
        · simpa [hji, List.count_singleton, Ne.symm hji] using this
    | succ k =>
      have hk2 : k < rest.length := by simpa using hk
      simp only [List.get?_cons_succ, List.take_succ_cons]
      rw [ih2 k hk2, hlen]
      simp only [Option.some.injEq]
      apply decide_eq_decide.mpr
      constructor
      · intro h j hj
        have := h j hj
        rw [hupd j] at this
        by_cases hji : j = i
        · simp [hji]
        · simpa [hji, List.count_cons, Ne.symm hji] using this
      · intro h j hj
        rw [hupd j]
        have := h j hj
        by_cases hji : j = i
        · simp [hji]
        · simpa [hji, List.count_cons, Ne.symm hji] using this

/-- A list of positions below `N` mentions every position below `N` exactly
when it has `N` distinct elements. -/
theorem all_seen_iff_card (l : List Nat) (N : Nat) (hl : ∀ i ∈ l, i < N) :
    (∀ j, j < N → j ∈ l) ↔ l.toFinset.card = N := by
  have hsub : l.toFinset ⊆ Finset.range N := by
    intro x hx
    rw [Finset.mem_range]
    exact hl x (List.mem_toFinset.mp hx)
  constructor
  · intro h
    have : l.toFinset = Finset.range N := by
      apply Finset.Subset.antisymm hsub
      intro x hx
      exact List.mem_toFinset.mpr (h x (Finset.mem_range.mp hx))
    rw [this, Finset.card_range]
  · intro h j hj
    have heq : l.toFinset = Finset.range N :=
      Finset.eq_of_subset_of_card_le hsub (by rw [h, Finset.card_range])
    have : j ∈ l.toFinset := by rw [heq]; exact Finset.mem_range.mpr hj
    exact List.mem_toFinset.mp this

/-- Starting from a registry without updates, the check run by update `k` calls
`manager->stop()` exactly when the updates delivered so far name as many
distinct meters as the registry holds. -/
theorem deliver_stop_iff_card {LM : Type} (cmdline : CommandLine LM) (w : World)
    (us : List Nat) (honeshot : cmdline.oneshot = true)
    (hzero : ∀ m ∈ w.meters, m.numUpdates = 0)
    (hus : ∀ i ∈ us, i < w.meters.length) (k : Nat) (hk : k < us.length) :
    (deliver cmdline us w).1.get? k =
      some (decide ((us.take (k + 1)).toFinset.card = w.meters.length)) := by
  rw [(deliver_flags cmdline honeshot us w hus).2 k hk]
  simp only [Option.some.injEq]
  apply decide_eq_decide.mpr
  have htake : ∀ i ∈ us.take (k + 1), i < w.meters.length :=
    fun i hi => hus i (List.mem_of_mem_take hi)
  rw [← all_seen_iff_card _ _ htake]
  have hz : ∀ j, updatesAt w.meters j = 0 := by
    intro j
    by_cases hj : j < w.meters.length
    · rw [updatesAt_lt _ _ hj]
      exact hzero _ (List.get_mem _ _ _)
    · exact updatesAt_ge _ _ (Nat.le_of_not_lt hj)
  constructor
  · intro h j hj
    have := h j hj
    rw [hz j, Nat.zero_add] at this
    exact List.count_pos_iff.mp (Nat.pos_of_ne_zero this)
  · intro h j hj
    rw [hz j, Nat.zero_add]
    exact Nat.ne_of_gt (List.count_pos_iff.mpr (h j hj))

/-- The distinct meters named by the first `k + 1` updates are those named by
the first `k` updates together with the meter of update `k`. -/
theorem toFinset_take_succ (us : List Nat) (k i : Nat) (h : us.get? k = some i) :
    (us.take (k + 1)).toFinset = insert i (us.take k).toFinset := by
  have h2 : us[k]? = some i := by simpa using h
  rw [List.take_succ, h2]
  ext x
  simp [or_comm]

/-- Claim C6. One-shot mode enabled, a registry of `N` meters whose update
counts are 0, and any finite sequence of accepted updates, each naming a meter
of the registry: every update is answered by one check; the check run by an
update calls `manager->stop()` if and only if the updates delivered so far
name `N` distinct meters; it does not while they name fewer than `N`; and an
update is the first to request the stop exactly when it is the first update of
its meter and the updates before it name `N - 1` distinct meters. -/
theorem oneshot_quiescence {LM : Type} (cmdline : CommandLine LM) (w : World)
    (us : List Nat) (honeshot : cmdline.oneshot = true)
    (hzero : ∀ m ∈ w.meters, m.numUpdates = 0)
    (hus : ∀ i ∈ us, i < w.meters.length) :
    (deliver cmdline us w).1.length = us.length ∧
    (∀ k, k < us.length →
      ((deliver cmdline us w).1.get? k = some true ↔
        (us.take (k + 1)).toFinset.card = w.meters.length)) ∧
    (∀ k, k < us.length → (us.take (k + 1)).toFinset.card < w.meters.length →
      (deliver cmdline us w).1.get? k = some false) ∧
    (∀ k i, us.get? k = some i →
      (((deliver cmdline us w).1.get? k = some true ∧
          ∀ j, j < k → (deliver cmdline us w).1.get? j = some false) ↔
        (i ∉ us.take k ∧ (us.take k).toFinset.card + 1 = w.meters.length))) := by
  have hflag := deliver_stop_iff_card cmdline w us honeshot hzero hus
  refine ⟨(deliver_flags cmdline honeshot us w hus).1, ?_, ?_, ?_⟩
  · intro k hk
    rw [hflag k hk]
    simp
  · intro k hk hlt
    rw [hflag k hk]
    simp [Nat.ne_of_lt hlt]
  · intro k i hki
    have hk : k < us.length := by
      by_contra hc
      rw [List.get?_eq_none.mpr (Nat.le_of_not_lt hc)] at hki
      cases hki
    have hins := toFinset_take_succ us k i hki
    rw [hflag k hk, hins]
    constructor
    · rintro ⟨htrue, hbefore⟩
      have hcard : (insert i (us.take k).toFinset).card = w.meters.length := by
        simpa using htrue
      have hnot : i ∉ us.take k := by
        intro hmem
        have hmemF : i ∈ (us.take k).toFinset := List.mem_toFinset.mpr hmem
        rw [Finset.insert_eq_of_mem hmemF] at hcard
        cases k with
        | zero => simp at hmem
        | succ k =>
          have hprev := hbefore k (Nat.lt_succ_self k)
          rw [hflag k (Nat.lt_of_succ_lt hk)] at hprev
          simp [hcard] at hprev
      refine ⟨hnot, ?_⟩
      rw [Finset.card_insert_of_not_mem (fun h => hnot (List.mem_toFinset.mp h))] at hcard
      exact hcard
    · rintro ⟨hnot, hcard⟩
      have hnotF : i ∉ (us.take k).toFinset := fun h => hnot (List.mem_toFinset.mp h)
      refine ⟨?_, ?_⟩
      · rw [Finset.card_insert_of_not_mem hnotF, hcard]
        simp
      · intro j hj
        rw [hflag j (Nat.lt_trans hj hk)]
        have hsub : (us.take (j + 1)).toFinset ⊆ (us.take k).toFinset := by
          intro x hx
          exact List.mem_toFinset.mpr
            (List.take_subset_take_left us (Nat.succ_le_of_lt hj) (List.mem_toFinset.mp hx))
        have hle := Finset.card_le_card hsub
        have hne : (us.take (j + 1)).toFinset.card ≠ w.meters.length := by omega
        simp [hne]

/-- Claim C6, evaluated on Scenario A: the registry built for M1 and M2, an
update of M1 and then an update of M2; the first is answered without a stop
request, the second with one. -/
theorem oneshot_quiescence_witness :
    scenarioA.oneshot = true ∧
    (∀ m ∈ scenarioAWorld.meters, m.numUpdates = 0) ∧
    (∀ i ∈ [0, 1], i < scenarioAWorld.meters.length) ∧
    (deliver scenarioA [0, 1] scenarioAWorld).1 = [false, true] ∧
    ((deliver scenarioA [0, 1] scenarioAWorld).1.get? 1 = some true ↔
      (([0, 1] : List Nat).take (1 + 1)).toFinset.card = scenarioAWorld.meters.length) :=
  ⟨rfl, by decide, by decide, by decide,
    (oneshot_quiescence scenarioA scenarioAWorld [0, 1] rfl (by decide) (by decide)).2.1 1
      (by decide)⟩

/-! ## The pid file of the daemon: claim C8 -/

end Wmbusmeters
